import Mathlib

/-!
Verification of the nvidia_gpu_prometheus_exporter metric-collection core.

The repository holds three variants of the exporter:
* `main.go`, first half ("variant A"): milliwatt-unit metrics, a
  `-disable-fanspeed` flag, GaugeVecs reset at the start of every `Collect`.
* `main.go`, second half ("variant B"): watt-unit metrics obtained by unsigned
  integer division by 1000, `-enable-fanspeed` / `-enable-powerlimits` /
  `-enable-averagepowerusage` flags, GaugeVecs reset at the start of every
  `Collect`.
* the unnamed file `part_004` ("variant P4"): an `up` health gauge, a
  `MaybeMetric` value/presence pair per observation, no GaugeVec resets, and a
  `-disable-fanspeed` flag that is declared but never consulted.

All NVML accessor results are unsigned integers in the source, so sample
values are modelled as `Nat`; an accessor that can fail is an `Option`.
A `prometheus.GaugeVec` is modelled as an association list from label-value
tuples to gauge values (`VecState`): `WithLabelValues(...).Set(v)` is an
upsert, `Reset` empties it, and `Collect` emits one sample per child.
-/

/-- One exposition sample: metric name, label values, numeric value. -/
structure Sample where
  key : String
  labels : List String
  value : Nat
  deriving DecidableEq, Repr

/-- The children of one `prometheus.GaugeVec`: label tuple to current value,
in insertion order (the order in which `WithLabelValues` first saw each
label tuple). -/
structure VecState where
  children : List (List String × Nat)
  deriving DecidableEq, Repr

/-- `WithLabelValues(lbls).Set(v)`: update the child with labels `lbls` if it
exists, otherwise append a fresh child. -/
def VecState.set (vs : VecState) (lbls : List String) (v : Nat) : VecState :=
  if ∃ c ∈ vs.children, c.1 = lbls then
    ⟨vs.children.map (fun c => if c.1 = lbls then (lbls, v) else c)⟩
  else
    ⟨vs.children ++ [(lbls, v)]⟩

/-- `GaugeVec.Collect(ch)`: emit one sample per child under metric name `key`. -/
def VecState.collect (vs : VecState) (key : String) : List Sample :=
  vs.children.map (fun c => ⟨key, c.1, c.2⟩)

/-- `GaugeVec.Reset()`. -/
def VecState.reset : VecState := ⟨[]⟩

/-- `promhttp` exposes samples grouped by metric name; select one metric. -/
def filterKey (k : String) (out : List Sample) : List Sample :=
  out.filter (fun smp => smp.key = k)

section GaugeModel

variable {M : Type} [DecidableEq M] {D : Type}

/-- The Telemetry Source Adapter as the Collector sees it:
`gonvml.DeviceCount()` and `gonvml.DeviceHandleByIndex(i)` followed by the
per-handle accessors recorded in `D`.  `none` models an error return. -/
structure AdapterG (D : Type) where
  deviceCount : Option Nat
  handle : Nat → Option D

/-- `c.<m>.WithLabelValues(lbls...).Set(v)` on a bank of vecs indexed by `M`. -/
def gSet (s : M → VecState) (m : M) (lbls : List String) (v : Nat) : M → VecState :=
  fun m' => if m' = m then (s m).set lbls v else s m'

/-- Run a sequence of `(metric, value)` sets, all with the same label tuple. -/
def gApply (s : M → VecState) (lbls : List String) (es : List (M × Nat)) :
    M → VecState :=
  es.foldl (fun s e => gSet s e.1 lbls e.2) s

/-- The `(metric, value)` pairs one device contributes, given the variant's
catalog of `(metric, reader)` pairs: one pair per successful reader, in
source order.  A reader returning `none` is an accessor error (or a
flag-disabled accessor), and contributes nothing. -/
def gEntries (cat : List (M × (D → Option Nat))) (d : D) : List (M × Nat) :=
  cat.filterMap (fun mr => (mr.2 d).map (fun v => (mr.1, v)))

/-- One iteration of the device loop in `Collect`: resolve the handle, then
the identity labels; on any failure `continue` without touching the vecs,
otherwise apply every successful accessor in source order. -/
def gCollectDev (rid : D → Option (List String))
    (cat : List (M × (D → Option Nat))) (a : AdapterG D)
    (s : M → VecState) (i : Nat) : M → VecState :=
  match a.handle i with
  | none => s
  | some d =>
    match rid d with
    | none => s
    | some lbls => gApply s lbls (gEntries cat d)

/-- The trailing `c.<m>.Collect(ch)` calls, in source order `order`. -/
def gOut (keyOf : M → String) (st : M → VecState) : List M → List Sample
  | [] => []
  | m :: r => (st m).collect (keyOf m) ++ gOut keyOf st r

/-- One full `Collect` sweep of the `main.go` collectors: reset every vec,
query `DeviceCount` (on error, log and return with nothing emitted), set and
emit the device-count gauge, loop over indices `0..n-1`, then collect every
vec.  Returns the final vec bank and the emitted samples in order. -/
def gSweep (rid : D → Option (List String))
    (cat : List (M × (D → Option Nat))) (keyOf : M → String) (order : List M)
    (ck : String) (a : AdapterG D) (s : M → VecState) :
    (M → VecState) × List Sample :=
  let _reset := fun (_ : M) => VecState.reset
  match a.deviceCount with
  | none => (_reset, [])
  | some n =>
    let st := (List.range n).foldl (gCollectDev rid cat a) _reset
    (st, ⟨ck, [], n⟩ :: gOut keyOf st order)

/-- The per-metric view of one device-loop iteration: only the entries whose
metric is `m` touch the vec of `m`. -/
def gDevStep (rid : D → Option (List String))
    (cat : List (M × (D → Option Nat))) (a : AdapterG D) (m : M)
    (vs : VecState) (i : Nat) : VecState :=
  match a.handle i with
  | none => vs
  | some d =>
    match rid d with
    | none => vs
    | some lbls =>
      ((gEntries cat d).filter (fun e => e.1 = m)).foldl
        (fun vs e => vs.set lbls e.2) vs

end GaugeModel

/-!
## Variant A: `main.go`, first program (milliwatt units)

`Collector.Collect`, `main.go` lines 318-537.
-/

/-- CLI flags of variant A that `Collect` reads. -/
structure FlagsA where
  disableFanSpeed : Bool
  deriving DecidableEq

/-- The gonvml responses for one device handle of variant A.  Tuple-returning
accessors keep the source's component order: `MemoryInfo() = (total, used)`,
`Bar1MemoryInfo() = (total, used)`, `UtilizationRates() = (gpu, memory)`,
`PowerLimitConstraints() = (min, max)`, `EncoderUtilization()` and
`DecoderUtilization() = (utilization, samplingPeriod)` of which only the
first component is used.  `AveragePowerUsage` and `AverageGPUUtilization`
are always called with the fixed `averageDuration`. -/
structure DeviceA where
  minorNumber : Option Nat
  uuid : Option String
  name : Option String
  memoryInfo : Option (Nat × Nat)
  bar1MemoryInfo : Option (Nat × Nat)
  utilizationRates : Option (Nat × Nat)
  powerUsage : Option Nat
  averagePowerUsage : Option Nat
  powerLimitConstraints : Option (Nat × Nat)
  powerState : Option Nat
  temperature : Option Nat
  fanSpeed : Option Nat
  encoderUtilization : Option (Nat × Nat)
  decoderUtilization : Option (Nat × Nat)
  averageGPUUtilization : Option Nat
  computeMode : Option Nat
  performanceState : Option Nat
  grClock : Option Nat
  grMaxClock : Option Nat
  smClock : Option Nat
  smMaxClock : Option Nat
  memClock : Option Nat
  memMaxClock : Option Nat
  videoClock : Option Nat
  videoMaxClock : Option Nat
  deriving DecidableEq

/-- The GaugeVec fields of variant A's `Collector` struct. -/
inductive MetricIdA where
  | usedMemory | totalMemory | usedBar1Memory | totalBar1Memory
  | powerUsage | avgPowerUsage | temperature | fanSpeed
  | encUsage | decUsage | GPUUtilizationRate | avgGPUUtilization
  | memoryUtilizationRate | computeMode | performanceState
  | grClockCurrent | grClockMax | SMClockCurrent | SMClockMax
  | memClockCurrent | memClockMax | videoClockCurrent | videoClockMax
  | powerLimitConstraintsMin | powerLimitConstraintsMax | powerState
  deriving DecidableEq, Fintype

/-- Identity resolution, `main.go` lines 366-383: `MinorNumber()`, `UUID()`,
`Name()`; any failure skips the device.  The label tuple is
`(strconv.Itoa(minorNumber), uuid, name)`. -/
def resolveIdA (d : DeviceA) : Option (List String) :=
  match d.minorNumber, d.uuid, d.name with
  | some mn, some uuid, some name => some [toString mn, uuid, name]
  | _, _, _ => none

/-- The per-device accessor/Set sequence of variant A, `main.go` lines
385-509, in source order.  Each entry is one `Set` call guarded by the
success of its accessor; the fan-speed accessor is only called when
`-disable-fanspeed` is unset (lines 442-449). -/
def catalogA (fl : FlagsA) : List (MetricIdA × (DeviceA → Option Nat)) :=
  [(.usedMemory, fun d => d.memoryInfo.map (fun p => p.2)),
   (.totalMemory, fun d => d.memoryInfo.map (fun p => p.1)),
   (.usedBar1Memory, fun d => d.bar1MemoryInfo.map (fun p => p.2)),
   (.totalBar1Memory, fun d => d.bar1MemoryInfo.map (fun p => p.1)),
   (.GPUUtilizationRate, fun d => d.utilizationRates.map (fun p => p.1)),
   (.memoryUtilizationRate, fun d => d.utilizationRates.map (fun p => p.2)),
   (.powerUsage, fun d => d.powerUsage),
   (.avgPowerUsage, fun d => d.averagePowerUsage),
   (.powerLimitConstraintsMin, fun d => d.powerLimitConstraints.map (fun p => p.1)),
   (.powerLimitConstraintsMax, fun d => d.powerLimitConstraints.map (fun p => p.2)),
   (.powerState, fun d => d.powerState),
   (.temperature, fun d => d.temperature)]
  ++ (if fl.disableFanSpeed then [] else [(.fanSpeed, fun d => d.fanSpeed)])
  ++ [(.encUsage, fun d => d.encoderUtilization.map (fun p => p.1)),
   (.decUsage, fun d => d.decoderUtilization.map (fun p => p.1)),
   (.avgGPUUtilization, fun d => d.averageGPUUtilization),
   (.computeMode, fun d => d.computeMode),
   (.performanceState, fun d => d.performanceState),
   (.grClockCurrent, fun d => d.grClock),
   (.grClockMax, fun d => d.grMaxClock),
   (.SMClockCurrent, fun d => d.smClock),
   (.SMClockMax, fun d => d.smMaxClock),
   (.memClockCurrent, fun d => d.memClock),
   (.memClockMax, fun d => d.memMaxClock),
   (.videoClockCurrent, fun d => d.videoClock),
   (.videoClockMax, fun d => d.videoMaxClock)]

/-- Fully-qualified metric names of variant A (namespace `nvidia_gpu`). -/
def keyOfA : MetricIdA → String
  | .usedMemory => "nvidia_gpu_memory_used_bytes"
  | .totalMemory => "nvidia_gpu_memory_total_bytes"
  | .usedBar1Memory => "nvidia_gpu_bar1_memory_used_bytes"
  | .totalBar1Memory => "nvidia_gpu_bar1_memory_total_bytes"
  | .powerUsage => "nvidia_gpu_power_usage_milliwatts"
  | .avgPowerUsage => "nvidia_gpu_avg_power_usage_milliwatts"
  | .temperature => "nvidia_gpu_temperature_celsius"
  | .fanSpeed => "nvidia_gpu_fanspeed_percent"
  | .encUsage => "nvidia_gpu_encoder_utilization_percent"
  | .decUsage => "nvidia_gpu_decoder_utilization_percent"
  | .GPUUtilizationRate => "nvidia_gpu_gpu_utilization_rate"
  | .avgGPUUtilization => "nvidia_gpu_avg_gpu_utilization"
  | .memoryUtilizationRate => "nvidia_gpu_memory_utilization_rate"
  | .computeMode => "nvidia_gpu_compute_mode"
  | .performanceState => "nvidia_gpu_performance_state"
  | .grClockCurrent => "nvidia_gpu_clock_gr_current"
  | .grClockMax => "nvidia_gpu_clock_gr_max"
  | .SMClockCurrent => "nvidia_gpu_clock_sm_current"
  | .SMClockMax => "nvidia_gpu_clock_sm_max"
  | .memClockCurrent => "nvidia_gpu_clock_mem_current"
  | .memClockMax => "nvidia_gpu_clock_mem_max"
  | .videoClockCurrent => "nvidia_gpu_clock_video_current"
  | .videoClockMax => "nvidia_gpu_clock_video_max"
  | .powerLimitConstraintsMin => "nvidia_gpu_power_limit_min"
  | .powerLimitConstraintsMax => "nvidia_gpu_power_limit_max"
  | .powerState => "nvidia_gpu_power_state"

/-- The `numDevices` gauge's metric name. -/
def countKeyA : String := "nvidia_gpu_num_devices"

/-- Emission order of the trailing `Collect(ch)` calls, lines 511-536. -/
def collectOrderA : List MetricIdA :=
  [.usedMemory, .totalMemory, .usedBar1Memory, .totalBar1Memory,
   .powerUsage, .avgPowerUsage, .temperature, .fanSpeed, .encUsage,
   .decUsage, .GPUUtilizationRate, .avgGPUUtilization,
   .memoryUtilizationRate, .computeMode, .performanceState,
   .grClockCurrent, .grClockMax, .SMClockCurrent, .SMClockMax,
   .memClockCurrent, .memClockMax, .videoClockCurrent, .videoClockMax,
   .powerLimitConstraintsMin, .powerLimitConstraintsMax, .powerState]

/-- Variant A's `Collector.Collect`: reset all vecs, query `DeviceCount`
(on error return with nothing emitted), emit the device-count sample, loop
over device indices, then collect every vec. -/
def sweepA (fl : FlagsA) (a : AdapterG DeviceA) (s : MetricIdA → VecState) :
    (MetricIdA → VecState) × List Sample :=
  gSweep resolveIdA (catalogA fl) keyOfA collectOrderA countKeyA a s

/-- The accessor methods variant A calls on a resolved device, in source
order (lines 385-509).  With `-disable-fanspeed` set, the `FanSpeed()` call
is skipped entirely (lines 442-449) rather than called and discarded. -/
def accessorCallsA (fl : FlagsA) : List String :=
  ["MemoryInfo", "Bar1MemoryInfo", "UtilizationRates", "PowerUsage",
   "AveragePowerUsage", "PowerLimitConstraints", "PowerState", "Temperature"]
  ++ (if fl.disableFanSpeed then [] else ["FanSpeed"])
  ++ ["EncoderUtilization", "DecoderUtilization", "AverageGPUUtilization",
   "ComputeMode", "PerformanceState", "GrClock", "GrMaxClock", "SMClock",
   "SMMaxClock", "MemClock", "MemMaxClock", "VideoClock", "VideoMaxClock"]

/-- The gonvml calls made for one device index (lines 359-509): the handle
lookup, then each identity accessor while they keep succeeding, then the
metric accessors. -/
def deviceCallsA (fl : FlagsA) (h : Option DeviceA) : List String :=
  "DeviceHandleByIndex" ::
    match h with
    | none => []
    | some d =>
      "MinorNumber" ::
        match d.minorNumber with
        | none => []
        | some _ =>
          "UUID" ::
            match d.uuid with
            | none => []
            | some _ =>
              "Name" ::
                match d.name with
                | none => []
                | some _ => accessorCallsA fl

/-- Every gonvml call one `Collect` of variant A makes, in order. -/
def invokedA (fl : FlagsA) (a : AdapterG DeviceA) : List String :=
  "DeviceCount" ::
    match a.deviceCount with
    | none => []
    | some n => (List.range n).flatMap (fun i => deviceCallsA fl (a.handle i))

/-!
## Variant B: `main.go`, second program (watt units)

`Collector.Collect`, `main.go` lines 1024-1336.
-/

/-- CLI flags of variant B that `Collect` reads. -/
structure FlagsB where
  enableFanSpeed : Bool
  enablePowerLimits : Bool
  enableAveragePowerUsage : Bool
  deriving DecidableEq

/-- The gonvml responses for one device handle of variant B.  Component
order of tuple accessors as in variant A; additionally
`PowerLimits() = (management, enforced)`,
`TemperatureThresholds() = (shutdown, slowdown)` and
`EncoderCapacity() = (h264, hevc)`. -/
structure DeviceB where
  minorNumber : Option Nat
  uuid : Option String
  name : Option String
  memoryInfo : Option (Nat × Nat)
  bar1MemoryInfo : Option (Nat × Nat)
  utilizationRates : Option (Nat × Nat)
  powerUsage : Option Nat
  averagePowerUsage : Option Nat
  totalEnergyConsumption : Option Nat
  powerLimitConstraints : Option (Nat × Nat)
  powerLimits : Option (Nat × Nat)
  powerManagementDefaultLimit : Option Nat
  temperature : Option Nat
  temperatureThresholds : Option (Nat × Nat)
  mostSeriousClocksThrottleReason : Option Nat
  fanSpeed : Option Nat
  encoderUtilization : Option (Nat × Nat)
  decoderUtilization : Option (Nat × Nat)
  averageGPUUtilization : Option Nat
  computeMode : Option Nat
  performanceState : Option Nat
  grClock : Option Nat
  grMaxClock : Option Nat
  smClock : Option Nat
  smMaxClock : Option Nat
  memClock : Option Nat
  memMaxClock : Option Nat
  videoClock : Option Nat
  videoMaxClock : Option Nat
  pcieTxThroughput : Option Nat
  pcieRxThroughput : Option Nat
  pcieGeneration : Option Nat
  pcieMaxGeneration : Option Nat
  pcieWidth : Option Nat
  pcieMaxWidth : Option Nat
  encoderCapacity : Option (Nat × Nat)
  deriving DecidableEq

/-- The GaugeVec fields of variant B's `Collector` struct. -/
inductive MetricIdB where
  | usedMemory | totalMemory | usedBar1Memory | totalBar1Memory
  | powerUsage | avgPowerUsage | energyConsumption | temperature
  | temperatureThresholdShutDown | temperatureThresholdSlowDown
  | throttlingReason | fanSpeed | encUsage | decUsage
  | GPUUtilizationRate | avgGPUUtilization | memoryUtilizationRate
  | computeMode | performanceState
  | grClockCurrent | grClockMax | SMClockCurrent | SMClockMax
  | memClockCurrent | memClockMax | videoClockCurrent | videoClockMax
  | powerLimitConstraintsMin | powerLimitConstraintsMax
  | powerLimitManagement | powerLimitEnforced | powerManagementDefaultLimit
  | pciTxThroughput | pciRxThroughput
  | pciLinkGenerationCurrent | pciLinkGenerationMax
  | pciLinkWidthCurrent | pciLinkWidthMax
  | videoEncoderCapacityH264 | videoEncoderCapacityHEVC
  deriving DecidableEq, Fintype

/-- Identity resolution, `main.go` lines 1086-1103 (same as variant A). -/
def resolveIdB (d : DeviceB) : Option (List String) :=
  match d.minorNumber, d.uuid, d.name with
  | some mn, some uuid, some name => some [toString mn, uuid, name]
  | _, _, _ => none

/-- The per-device accessor/Set sequence of variant B, `main.go` lines
1105-1293, in source order.  Power, power-limit and energy readings are
divided by 1000 as unsigned integers before the float conversion
(`float64(x/1000)`); average power is gated by `-enable-averagepowerusage`
(lines 1134-1141), the three power-limit accessors by `-enable-powerlimits`
(lines 1150-1172) and fan speed by `-enable-fanspeed` (lines 1195-1202). -/
def catalogB (fl : FlagsB) : List (MetricIdB × (DeviceB → Option Nat)) :=
  [(.usedMemory, fun d => d.memoryInfo.map (fun p => p.2)),
   (.totalMemory, fun d => d.memoryInfo.map (fun p => p.1)),
   (.usedBar1Memory, fun d => d.bar1MemoryInfo.map (fun p => p.2)),
   (.totalBar1Memory, fun d => d.bar1MemoryInfo.map (fun p => p.1)),
   (.GPUUtilizationRate, fun d => d.utilizationRates.map (fun p => p.1)),
   (.memoryUtilizationRate, fun d => d.utilizationRates.map (fun p => p.2)),
   (.powerUsage, fun d => d.powerUsage.map (fun v => v / 1000))]
  ++ (if fl.enableAveragePowerUsage then
        [(.avgPowerUsage, fun d => d.averagePowerUsage.map (fun v => v / 1000))]
      else [])
  ++ [(.energyConsumption, fun d => d.totalEnergyConsumption.map (fun v => v / 1000))]
  ++ (if fl.enablePowerLimits then
        [(.powerLimitConstraintsMin,
            fun d => d.powerLimitConstraints.map (fun p => p.1 / 1000)),
         (.powerLimitConstraintsMax,
            fun d => d.powerLimitConstraints.map (fun p => p.2 / 1000)),
         (.powerLimitManagement, fun d => d.powerLimits.map (fun p => p.1 / 1000)),
         (.powerLimitEnforced, fun d => d.powerLimits.map (fun p => p.2 / 1000)),
         (.powerManagementDefaultLimit,
            fun d => d.powerManagementDefaultLimit.map (fun v => v / 1000))]
      else [])
  ++ [(.temperature, fun d => d.temperature),
   (.temperatureThresholdShutDown, fun d => d.temperatureThresholds.map (fun p => p.1)),
   (.temperatureThresholdSlowDown, fun d => d.temperatureThresholds.map (fun p => p.2)),
   (.throttlingReason, fun d => d.mostSeriousClocksThrottleReason)]
  ++ (if fl.enableFanSpeed then [(.fanSpeed, fun d => d.fanSpeed)] else [])
  ++ [(.encUsage, fun d => d.encoderUtilization.map (fun p => p.1)),
   (.decUsage, fun d => d.decoderUtilization.map (fun p => p.1)),
   (.avgGPUUtilization, fun d => d.averageGPUUtilization),
   (.computeMode, fun d => d.computeMode),
   (.performanceState, fun d => d.performanceState),
   (.grClockCurrent, fun d => d.grClock),
   (.grClockMax, fun d => d.grMaxClock),
   (.SMClockCurrent, fun d => d.smClock),
   (.SMClockMax, fun d => d.smMaxClock),
   (.memClockCurrent, fun d => d.memClock),
   (.memClockMax, fun d => d.memMaxClock),
   (.videoClockCurrent, fun d => d.videoClock),
   (.videoClockMax, fun d => d.videoMaxClock),
   (.pciTxThroughput, fun d => d.pcieTxThroughput),
   (.pciRxThroughput, fun d => d.pcieRxThroughput),
   (.pciLinkGenerationCurrent, fun d => d.pcieGeneration),
   (.pciLinkGenerationMax, fun d => d.pcieMaxGeneration),
   (.pciLinkWidthCurrent, fun d => d.pcieWidth),
   (.pciLinkWidthMax, fun d => d.pcieMaxWidth),
   (.videoEncoderCapacityH264, fun d => d.encoderCapacity.map (fun p => p.1)),
   (.videoEncoderCapacityHEVC, fun d => d.encoderCapacity.map (fun p => p.2))]

/-- Fully-qualified metric names of variant B. -/
def keyOfB : MetricIdB → String
  | .usedMemory => "nvidia_gpu_memory_used_bytes"
  | .totalMemory => "nvidia_gpu_memory_total_bytes"
  | .usedBar1Memory => "nvidia_gpu_bar1_memory_used_bytes"
  | .totalBar1Memory => "nvidia_gpu_bar1_memory_total_bytes"
  | .powerUsage => "nvidia_gpu_power_usage_watts"
  | .avgPowerUsage => "nvidia_gpu_avg_power_usage_watts"
  | .energyConsumption => "nvidia_gpu_energy_consumption_joules"
  | .temperature => "nvidia_gpu_temperature_celsius"
  | .temperatureThresholdShutDown => "nvidia_gpu_temperature_threshold_shutdown_celcius"
  | .temperatureThresholdSlowDown => "nvidia_gpu_temperature_threshold_slowdown_celcius"
  | .throttlingReason => "nvidia_gpu_throttling_reason"
  | .fanSpeed => "nvidia_gpu_fanspeed_percent"
  | .encUsage => "nvidia_gpu_encoder_utilization_percent"
  | .decUsage => "nvidia_gpu_decoder_utilization_percent"
  | .GPUUtilizationRate => "nvidia_gpu_gpu_utilization_rate"
  | .avgGPUUtilization => "nvidia_gpu_avg_gpu_utilization_percent"
  | .memoryUtilizationRate => "nvidia_gpu_memory_utilization_rate"
  | .computeMode => "nvidia_gpu_compute_mode"
  | .performanceState => "nvidia_gpu_performance_state"
  | .grClockCurrent => "nvidia_gpu_clock_gr_current_mhz"
  | .grClockMax => "nvidia_gpu_clock_gr_max_mhz"
  | .SMClockCurrent => "nvidia_gpu_clock_sm_current_mhz"
  | .SMClockMax => "nvidia_gpu_clock_sm_max_mhz"
  | .memClockCurrent => "nvidia_gpu_clock_mem_current_mhz"
  | .memClockMax => "nvidia_gpu_clock_mem_max_mhz"
  | .videoClockCurrent => "nvidia_gpu_clock_video_current_mhz"
  | .videoClockMax => "nvidia_gpu_clock_video_max_mhz"
  | .powerLimitConstraintsMin => "nvidia_gpu_power_limit_min_watts"
  | .powerLimitConstraintsMax => "nvidia_gpu_power_limit_max_watts"
  | .powerLimitManagement => "nvidia_gpu_power_limit_management_watts"
  | .powerLimitEnforced => "nvidia_gpu_power_limit_enforced_watts"
  | .powerManagementDefaultLimit => "nvidia_gpu_power_management_default_limit_watts"
  | .pciTxThroughput => "nvidia_gpu_pci_throughput_tx_kilobytes_per_second"
  | .pciRxThroughput => "nvidia_gpu_pci_throughput_rx_kilobytes_per_second"
  | .pciLinkGenerationCurrent => "nvidia_gpu_pci_generation_current"
  | .pciLinkGenerationMax => "nvidia_gpu_pci_generation_max"
  | .pciLinkWidthCurrent => "nvidia_gpu_pci_width_current"
  | .pciLinkWidthMax => "nvidia_gpu_pci_width_max"
  | .videoEncoderCapacityH264 => "nvidia_gpu_video_encoder_capacity_h264"
  | .videoEncoderCapacityHEVC => "nvidia_gpu_video_encoder_capacity_hevc"

/-- The `numDevices` gauge's metric name (same in both `main.go` variants). -/
def countKeyB : String := "nvidia_gpu_num_devices"

/-- Emission order of the trailing `Collect(ch)` calls, lines 1296-1335. -/
def collectOrderB : List MetricIdB :=
  [.usedMemory, .totalMemory, .usedBar1Memory, .totalBar1Memory,
   .powerUsage, .avgPowerUsage, .energyConsumption, .temperature,
   .temperatureThresholdShutDown, .temperatureThresholdSlowDown,
   .throttlingReason, .fanSpeed, .encUsage, .decUsage,
   .GPUUtilizationRate, .avgGPUUtilization, .memoryUtilizationRate,
   .computeMode, .performanceState,
   .grClockCurrent, .grClockMax, .SMClockCurrent, .SMClockMax,
   .memClockCurrent, .memClockMax, .videoClockCurrent, .videoClockMax,
   .powerLimitConstraintsMin, .powerLimitConstraintsMax,
   .powerLimitManagement, .powerLimitEnforced, .powerManagementDefaultLimit,
   .pciTxThroughput, .pciRxThroughput,
   .pciLinkGenerationCurrent, .pciLinkGenerationMax,
   .pciLinkWidthCurrent, .pciLinkWidthMax,
   .videoEncoderCapacityH264, .videoEncoderCapacityHEVC]

/-- Variant B's `Collector.Collect`. -/
def sweepB (fl : FlagsB) (a : AdapterG DeviceB) (s : MetricIdB → VecState) :
    (MetricIdB → VecState) × List Sample :=
  gSweep resolveIdB (catalogB fl) keyOfB collectOrderB countKeyB a s

/-!
## Variant P4: the unnamed file `part_004`

`collectMetrics` (lines 73-203) and `Collector.Collect` (lines 385-436).
This variant has a `MaybeMetric` value/presence pair per observation, an
`up` health gauge, vecs keyed by the minor number alone, no `Reset` calls
anywhere in `Collect`, and a `disable-fanspeed` flag that is declared
(line 25) but never consulted.
-/

/-- The gonvml responses for one device handle of variant P4. -/
structure Device4Resp where
  uuid : Option String
  name : Option String
  minorNumber : Option Nat
  temperature : Option Nat
  powerUsage : Option Nat
  averagePowerUsage : Option Nat
  fanSpeed : Option Nat
  memoryInfo : Option (Nat × Nat)
  utilizationRates : Option (Nat × Nat)
  averageGPUUtilization : Option Nat
  encoderUtilization : Option (Nat × Nat)
  decoderUtilization : Option (Nat × Nat)
  deriving DecidableEq

/-- Variant P4's adapter: `SystemDriverVersion` is queried first inside
`collectMetrics`, then `DeviceCount`, then the per-index handles. -/
structure Adapter4 where
  driverVersion : Option String
  deviceCount : Option Nat
  handle : Nat → Option Device4Resp

/-- `MaybeMetric` (lines 39-42): a value plus a presence flag. -/
structure MaybeMetric where
  value : Nat
  isPresent : Bool
  deriving DecidableEq

/-- `setMetric` (lines 44-46). -/
def setMetric (v : Nat) : MaybeMetric := ⟨v, true⟩

/-- The value of a declared `var X MaybeMetric` after the accessor either
succeeded (`setMetric`) or failed (left at Go's zero value `{0, false}`;
the `unsetMetric` helper of lines 48-50 is never called). -/
def maybeOf (o : Option Nat) : MaybeMetric :=
  match o with
  | some v => setMetric v
  | none => ⟨0, false⟩

/-- The `Device` record built per resolved device (lines 52-70). -/
structure Device4 where
  Index : String
  MinorNumber : String
  Name : String
  UUID : String
  Temperature : MaybeMetric
  PowerUsage : MaybeMetric
  PowerUsageAverage : MaybeMetric
  FanSpeed : MaybeMetric
  MemoryTotal : MaybeMetric
  MemoryUsed : MaybeMetric
  UtilizationMemory : MaybeMetric
  UtilizationGPU : MaybeMetric
  UtilizationGPUAverage : MaybeMetric
  DutyCycle : MaybeMetric
  AvgDuty : MaybeMetric
  EncUsage : MaybeMetric
  DecUsage : MaybeMetric
  deriving DecidableEq

/-- Lines 109-199: the accessor reads for one resolved device.
`MemoryInfo() = (total, used)`, `UtilizationRates() = (gpu, memory)`;
`DutyCycle` re-reads `UtilizationRates` (line 170) and `AvgDuty` re-reads
`AverageGPUUtilization` (line 175), intentional aliasing.  The `FanSpeed`
accessor is read unconditionally (lines 138-141). -/
def mkDevice4 (index : Nat) (mn : Nat) (uuid name : String) (d : Device4Resp) :
    Device4 :=
  { Index := toString index
    MinorNumber := toString mn
    Name := name
    UUID := uuid
    Temperature := maybeOf d.temperature
    PowerUsage := maybeOf d.powerUsage
    PowerUsageAverage := maybeOf d.averagePowerUsage
    FanSpeed := maybeOf d.fanSpeed
    MemoryTotal := maybeOf (d.memoryInfo.map (fun p => p.1))
    MemoryUsed := maybeOf (d.memoryInfo.map (fun p => p.2))
    UtilizationMemory := maybeOf (d.utilizationRates.map (fun p => p.2))
    UtilizationGPU := maybeOf (d.utilizationRates.map (fun p => p.1))
    UtilizationGPUAverage := maybeOf d.averageGPUUtilization
    DutyCycle := maybeOf (d.utilizationRates.map (fun p => p.1))
    AvgDuty := maybeOf d.averageGPUUtilization
    EncUsage := maybeOf (d.encoderUtilization.map (fun p => p.1))
    DecUsage := maybeOf (d.decoderUtilization.map (fun p => p.1)) }

/-- `collectMetrics` (lines 73-203): driver version, device count (either
failure aborts with an error), then one `Device` per index whose handle,
UUID, name and minor number all resolve; a failing index is skipped. -/
def collectMetrics4 (a : Adapter4) : Option (String × List Device4) :=
  match a.driverVersion with
  | none => none
  | some version =>
    match a.deviceCount with
    | none => none
    | some n =>
      some (version,
        (List.range n).filterMap (fun index =>
          match a.handle index with
          | none => none
          | some d =>
            match d.uuid, d.name, d.minorNumber with
            | some uuid, some name, some mn => some (mkDevice4 index mn uuid name d)
            | _, _, _ => none))

/-- The GaugeVec fields of variant P4's `Collector` that persist across
sweeps (the `up` and `deviceCount` plain gauges are re-`Set` on every path
that emits them, so only their emitted samples are modelled). -/
structure State4 where
  info : VecState
  deviceInfo : VecState
  temperatures : VecState
  powerUsage : VecState
  powerUsageAverage : VecState
  fanSpeed : VecState
  memoryTotal : VecState
  memoryUsed : VecState
  utilizationMemory : VecState
  utilizationGPU : VecState
  utilizationGPUAverage : VecState
  encUsage : VecState
  decUsage : VecState
  dutyCycle : VecState
  avgDuty : VecState
  deriving DecidableEq

/-- All vecs empty: the state of a freshly constructed Collector. -/
def initState4 : State4 :=
  ⟨⟨[]⟩, ⟨[]⟩, ⟨[]⟩, ⟨[]⟩, ⟨[]⟩, ⟨[]⟩, ⟨[]⟩, ⟨[]⟩, ⟨[]⟩, ⟨[]⟩, ⟨[]⟩, ⟨[]⟩, ⟨[]⟩, ⟨[]⟩, ⟨[]⟩⟩

/-- One iteration of the emission loop (lines 398-417).  Only the fan-speed
`Set` is guarded by `isPresent`; every other metric is `Set`
unconditionally with the `MaybeMetric`'s value (0 when absent). -/
def upd4 (s : State4) (d : Device4) : State4 :=
  { s with
    deviceInfo := s.deviceInfo.set [d.Index, d.MinorNumber, d.Name, d.UUID] 1
    fanSpeed :=
      if d.FanSpeed.isPresent then s.fanSpeed.set [d.MinorNumber] d.FanSpeed.value
      else s.fanSpeed
    memoryTotal := s.memoryTotal.set [d.MinorNumber] d.MemoryTotal.value
    memoryUsed := s.memoryUsed.set [d.MinorNumber] d.MemoryUsed.value
    powerUsage := s.powerUsage.set [d.MinorNumber] d.PowerUsage.value
    powerUsageAverage := s.powerUsageAverage.set [d.MinorNumber] d.PowerUsageAverage.value
    temperatures := s.temperatures.set [d.MinorNumber] d.Temperature.value
    utilizationGPU := s.utilizationGPU.set [d.MinorNumber] d.UtilizationGPU.value
    utilizationGPUAverage :=
      s.utilizationGPUAverage.set [d.MinorNumber] d.UtilizationGPUAverage.value
    utilizationMemory := s.utilizationMemory.set [d.MinorNumber] d.UtilizationMemory.value
    encUsage := s.encUsage.set [d.MinorNumber] d.EncUsage.value
    decUsage := s.decUsage.set [d.MinorNumber] d.DecUsage.value
    dutyCycle := s.dutyCycle.set [d.MinorNumber] d.DutyCycle.value
    avgDuty := s.avgDuty.set [d.MinorNumber] d.AvgDuty.value }

/-- Variant P4's `Collector.Collect` (lines 385-436).  On a `collectMetrics`
error: `up` is set to 0 and is the only emitted sample; the vecs are left
untouched.  On success: `up` = 1, the driver-info and device-count gauges
are set, every device is folded into the (never reset) vecs, and all vecs
are collected in the source's order. -/
def part4Collect (a : Adapter4) (s : State4) : State4 × List Sample :=
  match collectMetrics4 a with
  | none => (s, [⟨"nvidia_gpu_up", [], 0⟩])
  | some (version, devices) =>
    let s1 : State4 := { s with info := s.info.set [version] 1 }
    let s2 := devices.foldl upd4 s1
    (s2,
      ⟨"nvidia_gpu_device_count", [], devices.length⟩ ::
      (s2.deviceInfo.collect "nvidia_gpu_info"
       ++ s2.fanSpeed.collect "nvidia_gpu_fanspeed"
       ++ s2.info.collect "nvidia_gpu_driver_info"
       ++ s2.memoryTotal.collect "nvidia_gpu_memory_total"
       ++ s2.memoryUsed.collect "nvidia_gpu_memory_used"
       ++ s2.powerUsage.collect "nvidia_gpu_power_usage"
       ++ s2.powerUsageAverage.collect "nvidia_gpu_power_usage_average"
       ++ s2.temperatures.collect "nvidia_gpu_temperatures"
       ++ [⟨"nvidia_gpu_up", [], 1⟩]
       ++ s2.utilizationGPU.collect "nvidia_gpu_utilization_gpu"
       ++ s2.utilizationGPUAverage.collect "nvidia_gpu_utilization_gpu_average"
       ++ s2.utilizationMemory.collect "nvidia_gpu_utilization_memory"
       ++ s2.encUsage.collect "nvidia_gpu_utilization_encoder"
       ++ s2.decUsage.collect "nvidia_gpu_utilization_decoder"
       ++ s2.dutyCycle.collect "nvidia_gpu_duty_cycle"
       ++ s2.avgDuty.collect "nvidia_gpu_avg_duty_cycle"))

/-- The gonvml calls `collectMetrics` makes for one device index
(lines 89-178): handle, then UUID, name, minor number while they keep
succeeding, then the fixed accessor sequence — `FanSpeed` among them
unconditionally. -/
def deviceCalls4 (h : Option Device4Resp) : List String :=
  "DeviceHandleByIndex" ::
    match h with
    | none => []
    | some d =>
      "UUID" ::
        match d.uuid with
        | none => []
        | some _ =>
          "Name" ::
            match d.name with
            | none => []
            | some _ =>
              "MinorNumber" ::
                match d.minorNumber with
                | none => []
                | some _ =>
                  ["Temperature", "PowerUsage", "AveragePowerUsage", "FanSpeed",
                   "MemoryInfo", "UtilizationRates", "AverageGPUUtilization",
                   "EncoderUtilization", "DecoderUtilization",
                   "UtilizationRates", "AverageGPUUtilization"]

/-- Every gonvml call one `Collect` of variant P4 makes, in order; the
declared-but-unused `disable-fanspeed` flag does not appear anywhere in
the control flow. -/
def invoked4 (a : Adapter4) : List String :=
  "SystemDriverVersion" ::
    match a.driverVersion with
    | none => []
    | some _ =>
      "DeviceCount" ::
        match a.deviceCount with
        | none => []
        | some n => (List.range n).flatMap (fun i => deviceCalls4 (a.handle i))

/-! ## Derived notions used by claim statements -/

/-- The adapter with device index `i` removed from enumeration results
(its handle lookup fails); used to state that a skipped device leaves no
trace. -/
def dropDevA (a : AdapterG DeviceA) (i : Nat) : AdapterG DeviceA :=
  { a with handle := fun j => if j = i then none else a.handle j }

def dropDev4 (a : Adapter4) (i : Nat) : Adapter4 :=
  { a with handle := fun j => if j = i then none else a.handle j }

/-- Device `i` fails handle resolution or one of its identity accessors
(variant A: minor number, UUID or name). -/
def devUnresolvedA (a : AdapterG DeviceA) (i : Nat) : Prop :=
  ∀ d, a.handle i = some d → resolveIdA d = none

/-- Device `i` fails handle resolution or one of its identity accessors
(variant P4: UUID, name or minor number). -/
def devUnresolved4 (a : Adapter4) (i : Nat) : Prop :=
  ∀ d, a.handle i = some d →
    d.uuid = none ∨ d.name = none ∨ d.minorNumber = none

/-- The variant-B adapter with device index `i` removed from enumeration
results (its handle lookup fails). -/
def dropDevB (a : AdapterG DeviceB) (i : Nat) : AdapterG DeviceB :=
  { a with handle := fun j => if j = i then none else a.handle j }

/-- Device `i` fails handle resolution or one of its identity accessors
(variant B: minor number, UUID or name). -/
def devUnresolvedB (a : AdapterG DeviceB) (i : Nat) : Prop :=
  ∀ d, a.handle i = some d → resolveIdB d = none

/-- One `WithLabelValues(...).Set(...)` per element of a write sequence,
in order: the per-vec effect of one emission loop. -/
def setSeq (vs : VecState) (σ : List (List String × Nat)) : VecState :=
  σ.foldl (fun vs e => vs.set e.1 e.2) vs

/-- The vec already has a child with label tuple `l` (the hit test of
`WithLabelValues`). -/
def keyIn (vs : VecState) (l : List String) : Prop :=
  ∃ c ∈ vs.children, c.1 = l

/-- Every child labelled `l` holds exactly the value `v`. -/
def allL (vs : VecState) (l : List String) (v : Nat) : Prop :=
  ∀ c ∈ vs.children, c.1 = l → c = (l, v)

/-- The write sequence touches label tuple `l`. -/
def keyWritten (σ : List (List String × Nat)) (l : List String) : Prop :=
  ∃ e ∈ σ, e.1 = l

/-- Two vecs with the same label sequence that agree except possibly on
the values of children labelled `l`. -/
def eqExceptL (l : List String) (st1 st2 : VecState) : Prop :=
  List.Forall₂ (fun c1 c2 => c1 = c2 ∨ (c1.1 = l ∧ c2.1 = l))
    st1.children st2.children

/-- The `deviceInfo` write of one P4 emission-loop iteration, as data. -/
def entryInfo4 (d : Device4) : List String × Nat :=
  ([d.Index, d.MinorNumber, d.Name, d.UUID], 1)

/-- The (conditionally performed) fan-speed write of one P4 emission-loop
iteration. -/
def entryFan4 (d : Device4) : Option (List String × Nat) :=
  if d.FanSpeed.isPresent then some ([d.MinorNumber], d.FanSpeed.value) else none

/-- A minor-labelled write of one P4 emission-loop iteration. -/
def entryMinor4 (f : Device4 → MaybeMetric) (d : Device4) : List String × Nat :=
  ([d.MinorNumber], (f d).value)

/-- The power, power-limit and energy metrics of variant B: the ones whose
emitted value passes through the `x/1000` unsigned division. -/
def wattMetricsB : List MetricIdB :=
  [.powerUsage, .avgPowerUsage, .energyConsumption, .powerLimitConstraintsMin,
   .powerLimitConstraintsMax, .powerLimitManagement, .powerLimitEnforced,
   .powerManagementDefaultLimit]

/-- The raw (milli-unit) accessor reading that feeds each watt/joule
metric of variant B. -/
def rawOfB : MetricIdB → DeviceB → Option Nat
  | .powerUsage, d => d.powerUsage
  | .avgPowerUsage, d => d.averagePowerUsage
  | .energyConsumption, d => d.totalEnergyConsumption
  | .powerLimitConstraintsMin, d => d.powerLimitConstraints.map (fun p => p.1)
  | .powerLimitConstraintsMax, d => d.powerLimitConstraints.map (fun p => p.2)
  | .powerLimitManagement, d => d.powerLimits.map (fun p => p.1)
  | .powerLimitEnforced, d => d.powerLimits.map (fun p => p.2)
  | .powerManagementDefaultLimit, d => d.powerManagementDefaultLimit
  | _, _ => none

/-! ## Concrete fixtures for counterexamples and witnesses -/

/-- A variant-A adapter whose `DeviceCount()` fails. -/
def aAC1 : AdapterG DeviceA := { deviceCount := none, handle := fun _ => none }

/-- A variant-B adapter whose `DeviceCount()` fails. -/
def aBC1 : AdapterG DeviceB := { deviceCount := none, handle := fun _ => none }

/-- A variant-P4 adapter whose `DeviceCount()` fails. -/
def a4C1 : Adapter4 :=
  { driverVersion := some "418.67", deviceCount := none, handle := fun _ => none }

/-- A P4 device whose identity resolves but whose temperature accessor
fails; every other accessor succeeds. -/
def d4C2 : Device4Resp :=
  { uuid := some "GPU-2f7c", name := some "GeForce GTX 1080", minorNumber := some 0,
    temperature := none, powerUsage := some 100000, averagePowerUsage := some 90000,
    fanSpeed := some 40, memoryInfo := some (8000000, 2500000),
    utilizationRates := some (20, 10), averageGPUUtilization := some 15,
    encoderUtilization := some (1, 167000), decoderUtilization := some (2, 167000) }

def a4C2 : Adapter4 :=
  { driverVersion := some "418.67", deviceCount := some 1,
    handle := fun i => if i = 0 then some d4C2 else none }

/-- A fully resolving P4 device with minor number 3 and temperature 65. -/
def d4C3 : Device4Resp :=
  { uuid := some "GPU-3abc", name := some "Tesla K80", minorNumber := some 3,
    temperature := some 65, powerUsage := some 120000, averagePowerUsage := some 110000,
    fanSpeed := some 40, memoryInfo := some (12000000, 300000),
    utilizationRates := some (55, 33), averageGPUUtilization := some 50,
    encoderUtilization := some (7, 167000), decoderUtilization := some (9, 167000) }

def a4C3 : Adapter4 :=
  { driverVersion := some "418.67", deviceCount := some 1,
    handle := fun i => if i = 0 then some d4C3 else none }

/-- The same adapter one sweep later, when the enumeration returns 0
devices (device 3 was hot-unplugged). -/
def a4C3b : Adapter4 := { a4C3 with deviceCount := some 0 }

/-- A P4 device for the device-count scenario. -/
def d4C4 : Device4Resp :=
  { uuid := some "GPU-4d2e", name := some "Tesla V100", minorNumber := some 0,
    temperature := some 30, powerUsage := some 55000, averagePowerUsage := none,
    fanSpeed := none, memoryInfo := some (16000000, 100000),
    utilizationRates := some (5, 2), averageGPUUtilization := some 4,
    encoderUtilization := none, decoderUtilization := none }

/-- `DeviceCount()` returns 2 but device 1's handle resolution fails. -/
def a4C4 : Adapter4 :=
  { driverVersion := some "418.67", deviceCount := some 2,
    handle := fun i => if i = 0 then some d4C4 else none }

/-- A fully resolving variant-A device used by several witnesses. -/
def dAFull : DeviceA :=
  { minorNumber := some 3, uuid := some "GPU-76aa", name := some "Tesla K80",
    memoryInfo := some (12000000, 300000), bar1MemoryInfo := some (256, 16),
    utilizationRates := some (55, 33), powerUsage := some 120000,
    averagePowerUsage := some 110000, powerLimitConstraints := some (100000, 250000),
    powerState := some 2, temperature := some 65, fanSpeed := some 40,
    encoderUtilization := some (7, 167000), decoderUtilization := some (9, 167000),
    averageGPUUtilization := some 50, computeMode := some 0,
    performanceState := some 0, grClock := some 1500, grMaxClock := some 1800,
    smClock := some 1500, smMaxClock := some 1800, memClock := some 5000,
    memMaxClock := some 5500, videoClock := some 1200, videoMaxClock := some 1300 }

def aAC3w : AdapterG DeviceA :=
  { deviceCount := some 1, handle := fun i => if i = 0 then some dAFull else none }

/-- A P4 device with a working fan (speed 51) and minor number 0. -/
def d4C5 : Device4Resp :=
  { uuid := some "GPU-5e11", name := some "GeForce RTX 2080", minorNumber := some 0,
    temperature := some 45, powerUsage := some 80000, averagePowerUsage := some 75000,
    fanSpeed := some 51, memoryInfo := some (8000000, 400000),
    utilizationRates := some (10, 5), averageGPUUtilization := some 8,
    encoderUtilization := some (0, 167000), decoderUtilization := some (0, 167000) }

def a4C5 : Adapter4 :=
  { driverVersion := some "418.67", deviceCount := some 1,
    handle := fun i => if i = 0 then some d4C5 else none }

/-- Variant-A adapter: one device whose `Name()` accessor fails. -/
def dAC6w : DeviceA := { dAFull with name := none }

def aAC6w : AdapterG DeviceA :=
  { deviceCount := some 1, handle := fun j => if j = 0 then some dAC6w else none }

/-- A fully resolving P4 device with minor number 7 and temperature 66. -/
def d4C6 : Device4Resp :=
  { uuid := some "GPU-6b2d", name := some "Tesla P100", minorNumber := some 7,
    temperature := some 66, powerUsage := some 95000, averagePowerUsage := some 90000,
    fanSpeed := none, memoryInfo := some (16000000, 800000),
    utilizationRates := some (40, 22), averageGPUUtilization := some 35,
    encoderUtilization := some (3, 167000), decoderUtilization := some (4, 167000) }

def a4C6 : Adapter4 :=
  { driverVersion := some "418.67", deviceCount := some 1,
    handle := fun i => if i = 0 then some d4C6 else none }

/-- The same device one sweep later, now with a failing `UUID()` accessor. -/
def d4C6b : Device4Resp := { d4C6 with uuid := none }

def a4C6b : Adapter4 :=
  { a4C6 with handle := fun i => if i = 0 then some d4C6b else none }

/-- A fully resolving variant-A device with minor number 2. -/
def dAC7 : DeviceA :=
  { minorNumber := some 2, uuid := some "GPU-7aaf", name := some "Tesla T4",
    memoryInfo := some (16000, 4000), bar1MemoryInfo := some (256, 32),
    utilizationRates := some (60, 41), powerUsage := some 70000,
    averagePowerUsage := some 68000, powerLimitConstraints := some (60000, 70000),
    powerState := some 0, temperature := some 71, fanSpeed := some 35,
    encoderUtilization := some (11, 167000), decoderUtilization := some (12, 167000),
    averageGPUUtilization := some 58, computeMode := some 0,
    performanceState := some 0, grClock := some 1600, grMaxClock := some 1700,
    smClock := some 1600, smMaxClock := some 1700, memClock := some 5001,
    memMaxClock := some 5002, videoClock := some 1210, videoMaxClock := some 1310 }

def aAC7 : AdapterG DeviceA :=
  { deviceCount := some 1, handle := fun j => if j = 0 then some dAC7 else none }

/-- The same device with only its `MemoryInfo()` accessor now failing. -/
def dAC7f : DeviceA := { dAC7 with memoryInfo := none }

def aAC7f : AdapterG DeviceA :=
  { deviceCount := some 1, handle := fun j => if j = 0 then some dAC7f else none }

/-- A fully resolving variant-B device with minor number 4 and a power
reading of 120500 mW (i.e. 120.5 W). -/
def dBC10 : DeviceB :=
  { minorNumber := some 4, uuid := some "GPU-a1b2", name := some "Tesla V100",
    memoryInfo := some (16000000, 900000), bar1MemoryInfo := some (256, 64),
    utilizationRates := some (77, 41), powerUsage := some 120500,
    averagePowerUsage := some 118999, totalEnergyConsumption := some 999999,
    powerLimitConstraints := some (100000, 250000),
    powerLimits := some (200000, 199500), powerManagementDefaultLimit := some 250000,
    temperature := some 80, temperatureThresholds := some (90, 85),
    mostSeriousClocksThrottleReason := some 1, fanSpeed := some 60,
    encoderUtilization := some (5, 167000), decoderUtilization := some (6, 167000),
    averageGPUUtilization := some 70, computeMode := some 0,
    performanceState := some 0, grClock := some 1500, grMaxClock := some 1800,
    smClock := some 1500, smMaxClock := some 1800, memClock := some 5000,
    memMaxClock := some 5500, videoClock := some 1200, videoMaxClock := some 1300,
    pcieTxThroughput := some 2000, pcieRxThroughput := some 1500,
    pcieGeneration := some 3, pcieMaxGeneration := some 4,
    pcieWidth := some 16, pcieMaxWidth := some 16,
    encoderCapacity := some (100, 100) }

def aBC10 : AdapterG DeviceB :=
  { deviceCount := some 1, handle := fun j => if j = 0 then some dBC10 else none }

/-- Variant-B adapter: one device whose `Name()` accessor fails. -/
def dBC6w : DeviceB := { dBC10 with name := none }

def aBC6w : AdapterG DeviceB :=
  { deviceCount := some 1, handle := fun j => if j = 0 then some dBC6w else none }

/-- Variant-B adapter with the fully resolving device `dBC10`. -/
def aBC7 : AdapterG DeviceB :=
  { deviceCount := some 1, handle := fun j => if j = 0 then some dBC10 else none }

/-- The same device with only its `PowerLimits()` accessor now failing. -/
def dBC7f : DeviceB := { dBC10 with powerLimits := none }

def aBC7f : AdapterG DeviceB :=
  { deviceCount := some 1, handle := fun j => if j = 0 then some dBC7f else none }

/-- A P4 device whose identity resolves (minor 1) but whose `PowerUsage()`
accessor fails; every other accessor succeeds. -/
def d4C7 : Device4Resp :=
  { uuid := some "GPU-7e09", name := some "GeForce GTX 1070", minorNumber := some 1,
    temperature := some 55, powerUsage := none, averagePowerUsage := some 60000,
    fanSpeed := some 30, memoryInfo := some (8000000, 1000000),
    utilizationRates := some (25, 12), averageGPUUtilization := some 20,
    encoderUtilization := some (2, 167000), decoderUtilization := some (3, 167000) }

def a4C7 : Adapter4 :=
  { driverVersion := some "418.67", deviceCount := some 1,
    handle := fun i => if i = 0 then some d4C7 else none }

/-! ## Supporting lemmas -/

theorem VecState.mem_set (vs : VecState) (lbls : List String) (v : Nat)
    (c : List String × Nat) (h : c ∈ (vs.set lbls v).children) :
    c ∈ vs.children ∨ c = (lbls, v) := by
  unfold VecState.set at h
  by_cases hb : ∃ c ∈ vs.children, c.1 = lbls
  · rw [if_pos hb] at h
    simp only [List.mem_map] at h
    obtain ⟨c0, hc0, heq⟩ := h
    by_cases hl : c0.1 = lbls
    · right; rw [if_pos hl] at heq; exact heq.symm
    · left; rw [if_neg hl] at heq; exact heq ▸ hc0
  · rw [if_neg hb] at h
    rcases List.mem_append.mp h with h | h
    · exact Or.inl h
    · exact Or.inr (List.mem_singleton.mp h)

/-- Folding a list of values into one vec with fixed labels: any resulting
child was already there or carries the written labels and one of the values. -/
theorem VecState.mem_setFold (es : List Nat) (lbls : List String) (vs : VecState)
    (c : List String × Nat)
    (h : c ∈ (es.foldl (fun vs v => vs.set lbls v) vs).children) :
    c ∈ vs.children ∨ (c.1 = lbls ∧ c.2 ∈ es) := by
  induction es generalizing vs with
  | nil => exact Or.inl h
  | cons v t ih =>
    rcases ih (vs.set lbls v) h with h1 | h1
    · rcases VecState.mem_set vs lbls v c h1 with h2 | h2
      · exact Or.inl h2
      · exact Or.inr ⟨by rw [h2], by rw [h2]; simp⟩
    · exact Or.inr ⟨h1.1, List.mem_cons_of_mem _ h1.2⟩

theorem filterKey_append (k : String) (l1 l2 : List Sample) :
    filterKey k (l1 ++ l2) = filterKey k l1 ++ filterKey k l2 :=
  List.filter_append l1 l2

theorem filterKey_collect (vs : VecState) (k k' : String) :
    filterKey k (vs.collect k') = if k' = k then vs.collect k' else [] := by
  unfold filterKey VecState.collect
  by_cases h : k' = k
  · rw [if_pos h]
    apply List.filter_eq_self.mpr
    intro s hs
    simp only [List.mem_map] at hs
    obtain ⟨c, _, rfl⟩ := hs
    simp [h]
  · rw [if_neg h]
    apply List.filter_eq_nil_iff.mpr
    intro s hs
    simp only [List.mem_map] at hs
    obtain ⟨c, _, rfl⟩ := hs
    simp [h]

theorem filterKey_cons (k : String) (x : Sample) (l : List Sample) :
    filterKey k (x :: l) =
      if x.key = k then x :: filterKey k l else filterKey k l := by
  unfold filterKey
  rw [List.filter_cons]
  by_cases h : x.key = k
  · rw [if_pos h, if_pos (by simpa using h)]
  · rw [if_neg h, if_neg (by simpa using h)]

theorem foldl_congr_fn {α β : Type} (f g : β → α → β) (l : List α)
    (h : ∀ a ∈ l, ∀ b, f b a = g b a) : ∀ s, l.foldl f s = l.foldl g s := by
  induction l with
  | nil => intro s; rfl
  | cons a t ih =>
    intro s
    simp only [List.foldl_cons]
    rw [h a (by simp)]
    exact ih (fun x hx b => h x (List.mem_cons_of_mem _ hx) b) _

theorem filterMap_congr_fn {α β : Type} (f g : α → Option β) (l : List α)
    (h : ∀ a ∈ l, f a = g a) : l.filterMap f = l.filterMap g := by
  induction l with
  | nil => rfl
  | cons a t ih =>
    simp only [List.filterMap_cons, h a (by simp)]
    rw [ih (fun x hx => h x (List.mem_cons_of_mem _ hx))]

theorem foldl_fixed_fn {α β : Type} (f : β → α → β) (l : List α)
    (h : ∀ b, ∀ a ∈ l, f b a = b) : ∀ s, l.foldl f s = s := by
  induction l with
  | nil => intro s; rfl
  | cons a t ih =>
    intro s
    simp only [List.foldl_cons]
    rw [h s a (by simp)]
    exact ih (fun b x hx => h b x (List.mem_cons_of_mem _ hx)) s

theorem keyIn_set_self (vs : VecState) (l : List String) (v : Nat) :
    keyIn (vs.set l v) l := by
  unfold keyIn VecState.set
  by_cases hb : ∃ c ∈ vs.children, c.1 = l
  · rw [if_pos hb]
    obtain ⟨c, hc, hcl⟩ := hb
    exact ⟨(l, v), List.mem_map.mpr ⟨c, hc, by rw [if_pos hcl]⟩, rfl⟩
  · rw [if_neg hb]
    exact ⟨(l, v), by simp, rfl⟩

theorem keyIn_set_mono (vs : VecState) (k l : List String) (w : Nat)
    (h : keyIn vs l) : keyIn (vs.set k w) l := by
  unfold keyIn at h ⊢
  obtain ⟨c, hc, hcl⟩ := h
  unfold VecState.set
  by_cases hb : ∃ c ∈ vs.children, c.1 = k
  · rw [if_pos hb]
    by_cases hck : c.1 = k
    · exact ⟨(k, w), List.mem_map.mpr ⟨c, hc, by rw [if_pos hck]⟩,
        by rw [← hck]; exact hcl⟩
    · exact ⟨c, List.mem_map.mpr ⟨c, hc, by rw [if_neg hck]⟩, hcl⟩
  · rw [if_neg hb]
    exact ⟨c, List.mem_append_left _ hc, hcl⟩

theorem keyIn_setSeq (σ : List (List String × Nat)) :
    ∀ (vs : VecState) (l : List String), keyIn vs l → keyIn (setSeq vs σ) l := by
  induction σ with
  | nil => intro vs l h; exact h
  | cons e τ ih =>
    intro vs l h
    exact ih _ _ (keyIn_set_mono _ _ _ _ h)

theorem allL_set_self (vs : VecState) (l : List String) (v : Nat) :
    allL (vs.set l v) l v := by
  unfold allL VecState.set
  by_cases hb : ∃ c ∈ vs.children, c.1 = l
  · rw [if_pos hb]
    intro c hc hcl
    simp only [List.mem_map] at hc
    obtain ⟨c0, hc0, hceq⟩ := hc
    by_cases h0 : c0.1 = l
    · rw [if_pos h0] at hceq
      rw [← hceq]
    · rw [if_neg h0] at hceq
      rw [← hceq] at hcl
      exact absurd hcl h0
  · rw [if_neg hb]
    intro c hc hcl
    rcases List.mem_append.mp hc with h1 | h1
    · exact absurd ⟨c, h1, hcl⟩ hb
    · rw [List.mem_singleton.mp h1]

theorem allL_set_other (vs : VecState) (l k : List String) (v w : Nat)
    (hk : k ≠ l) (h : allL vs l v) : allL (vs.set k w) l v := by
  unfold allL at h ⊢
  unfold VecState.set
  by_cases hb : ∃ c ∈ vs.children, c.1 = k
  · rw [if_pos hb]
    intro c hc hcl
    simp only [List.mem_map] at hc
    obtain ⟨c0, hc0, hceq⟩ := hc
    by_cases h0 : c0.1 = k
    · rw [if_pos h0] at hceq
      rw [← hceq] at hcl
      exact absurd hcl hk
    · rw [if_neg h0] at hceq
      rw [← hceq] at hcl ⊢
      exact h c0 hc0 hcl
  · rw [if_neg hb]
    intro c hc hcl
    rcases List.mem_append.mp hc with h1 | h1
    · exact h c h1 hcl
    · rw [List.mem_singleton.mp h1] at hcl
      exact absurd hcl hk

theorem allL_setSeq (l : List String) (v : Nat) :
    ∀ (σ : List (List String × Nat)), ¬ keyWritten σ l →
      ∀ vs, allL vs l v → allL (setSeq vs σ) l v := by
  intro σ
  induction σ with
  | nil => intro _ vs h; exact h
  | cons e τ ih =>
    intro hσ vs h
    unfold keyWritten at hσ
    have hel : e.1 ≠ l := fun hh => hσ ⟨e, List.mem_cons_self _ _, hh⟩
    have hτ : ¬ keyWritten τ l := by
      unfold keyWritten
      rintro ⟨e', he', hl⟩
      exact hσ ⟨e', List.mem_cons_of_mem _ he', hl⟩
    exact ih hτ _ (allL_set_other _ _ _ _ _ hel h)

theorem set_eq_self_of (vs : VecState) (l : List String) (v : Nat)
    (hin : keyIn vs l) (hall : allL vs l v) : vs.set l v = vs := by
  unfold keyIn at hin
  unfold allL at hall
  unfold VecState.set
  rw [if_pos hin]
  refine congrArg VecState.mk ?_
  have : vs.children.map (fun c => if c.1 = l then (l, v) else c)
      = vs.children.map id := by
    apply List.map_congr_left
    intro c hc
    by_cases hcl : c.1 = l
    · rw [if_pos hcl]
      exact (hall c hc hcl).symm
    · rw [if_neg hcl]
      rfl
  rw [this, List.map_id]

/-- `Set` twice with the same labels and value is `Set` once. -/
theorem set_set_same (vs : VecState) (l : List String) (v : Nat) :
    (vs.set l v).set l v = vs.set l v :=
  set_eq_self_of _ _ _ (keyIn_set_self vs l v) (allL_set_self vs l v)

theorem eqExceptL_keys (l : List String) :
    ∀ {c1 c2 : List (List String × Nat)},
      List.Forall₂ (fun a b => a = b ∨ (a.1 = l ∧ b.1 = l)) c1 c2 →
      c1.map Prod.fst = c2.map Prod.fst := by
  intro c1 c2 h
  induction h with
  | nil => rfl
  | cons hp _ ih =>
    simp only [List.map_cons]
    rw [ih]
    rcases hp with h1 | ⟨ha, hb⟩
    · rw [h1]
    · rw [ha, hb]

theorem eqExceptL_keyIn (l k : List String) (st1 st2 : VecState)
    (h : eqExceptL l st1 st2) : keyIn st1 k ↔ keyIn st2 k := by
  unfold eqExceptL at h
  unfold keyIn
  constructor
  · rintro ⟨c, hc, hcl⟩
    have hm : k ∈ st2.children.map Prod.fst := by
      rw [← eqExceptL_keys l h]
      exact List.mem_map.mpr ⟨c, hc, hcl⟩
    obtain ⟨c', hc', hcl'⟩ := List.mem_map.mp hm
    exact ⟨c', hc', hcl'⟩
  · rintro ⟨c, hc, hcl⟩
    have hm : k ∈ st1.children.map Prod.fst := by
      rw [eqExceptL_keys l h]
      exact List.mem_map.mpr ⟨c, hc, hcl⟩
    obtain ⟨c', hc', hcl'⟩ := List.mem_map.mp hm
    exact ⟨c', hc', hcl'⟩

theorem eqExceptL_set_self (l : List String) (v : Nat) (st : VecState)
    (hin : keyIn st l) : eqExceptL l (st.set l v) st := by
  unfold keyIn at hin
  unfold eqExceptL VecState.set
  rw [if_pos hin]
  rw [List.forall₂_map_left_iff]
  apply List.forall₂_same.mpr
  intro c hc
  by_cases hcl : c.1 = l
  · right
    rw [if_pos hcl]
    exact ⟨rfl, hcl⟩
  · left
    rw [if_neg hcl]

theorem forall2_map_pair {α : Type} (r : α → α → Prop) (f g : α → α)
    (H : ∀ a b, r a b → r (f a) (g b)) :
    ∀ {as bs : List α}, List.Forall₂ r as bs →
      List.Forall₂ r (as.map f) (bs.map g) := by
  intro as bs h
  induction h with
  | nil => exact List.Forall₂.nil
  | cons hp _ ih => exact List.Forall₂.cons (H _ _ hp) ih

theorem forall2_append_single {α : Type} (r : α → α → Prop) (x : α) (hx : r x x) :
    ∀ {as bs : List α}, List.Forall₂ r as bs →
      List.Forall₂ r (as ++ [x]) (bs ++ [x]) := by
  intro as bs h
  induction h with
  | nil => exact List.Forall₂.cons hx List.Forall₂.nil
  | cons hp _ ih => exact List.Forall₂.cons hp ih

theorem eqExceptL_set (l k : List String) (w : Nat) (st1 st2 : VecState)
    (hk : k ≠ l) (h : eqExceptL l st1 st2) :
    eqExceptL l (st1.set k w) (st2.set k w) := by
  have hiff := eqExceptL_keyIn l k st1 st2 h
  unfold keyIn at hiff
  unfold eqExceptL at h ⊢
  unfold VecState.set
  by_cases hb : ∃ c ∈ st1.children, c.1 = k
  · have hb2 : ∃ c ∈ st2.children, c.1 = k := hiff.mp hb
    rw [if_pos hb, if_pos hb2]
    apply forall2_map_pair _ _ _ _ h
    intro a b hab
    rcases hab with h1 | ⟨ha, hbn⟩
    · left
      rw [h1]
    · have hna : ¬ a.1 = k := fun hc => hk (by rw [← hc]; exact ha)
      have hnb : ¬ b.1 = k := fun hc => hk (by rw [← hc]; exact hbn)
      right
      rw [if_neg hna, if_neg hnb]
      exact ⟨ha, hbn⟩
  · have hb2 : ¬ ∃ c ∈ st2.children, c.1 = k := fun hc => hb (hiff.mpr hc)
    rw [if_neg hb, if_neg hb2]
    exact forall2_append_single
      (fun c1 c2 => c1 = c2 ∨ (c1.1 = l ∧ c2.1 = l)) (k, w) (Or.inl rfl) h

theorem forall2_map_overwrite (l : List String) (w : Nat) :
    ∀ {c1 c2 : List (List String × Nat)},
      List.Forall₂ (fun a b => a = b ∨ (a.1 = l ∧ b.1 = l)) c1 c2 →
      c1.map (fun c => if c.1 = l then (l, w) else c)
        = c2.map (fun c => if c.1 = l then (l, w) else c) := by
  intro c1 c2 h
  induction h with
  | nil => rfl
  | cons hp _ ih =>
    simp only [List.map_cons]
    rw [ih]
    rcases hp with h1 | ⟨ha, hb⟩
    · rw [h1]
    · rw [if_pos ha, if_pos hb]

theorem forall2_all_eq (l : List String) :
    ∀ {c1 c2 : List (List String × Nat)},
      List.Forall₂ (fun a b => a = b ∨ (a.1 = l ∧ b.1 = l)) c1 c2 →
      (¬ ∃ c ∈ c1, c.1 = l) → c1 = c2 := by
  intro c1 c2 h
  induction h with
  | nil => intro _; rfl
  | cons hp _ ih =>
    intro habs
    rcases hp with h1 | ⟨ha, _⟩
    · rw [h1, ih (fun hcon => by
        obtain ⟨c, hc, hcl⟩ := hcon
        exact habs ⟨c, List.mem_cons_of_mem _ hc, hcl⟩)]
    · exact absurd ⟨_, List.mem_cons_self _ _, ha⟩ habs

theorem eqExceptL_set_l (l : List String) (w : Nat) (st1 st2 : VecState)
    (h : eqExceptL l st1 st2) : st1.set l w = st2.set l w := by
  have hiff := eqExceptL_keyIn l l st1 st2 h
  unfold keyIn at hiff
  unfold eqExceptL at h
  unfold VecState.set
  by_cases hb : ∃ c ∈ st1.children, c.1 = l
  · have hb2 : ∃ c ∈ st2.children, c.1 = l := hiff.mp hb
    rw [if_pos hb, if_pos hb2]
    exact congrArg VecState.mk (forall2_map_overwrite l w h)
  · have hb2 : ¬ ∃ c ∈ st2.children, c.1 = l := fun hc => hb (hiff.mpr hc)
    rw [if_neg hb, if_neg hb2, forall2_all_eq l h hb]

theorem setSeq_congr_written (l : List String) :
    ∀ (τ : List (List String × Nat)) (st1 st2 : VecState),
      eqExceptL l st1 st2 → keyWritten τ l → setSeq st1 τ = setSeq st2 τ := by
  intro τ
  induction τ with
  | nil =>
    intro st1 st2 _ hw
    exact absurd hw (by simp [keyWritten])
  | cons e τ ih =>
    intro st1 st2 h hw
    by_cases hel : e.1 = l
    · have hstep : st1.set e.1 e.2 = st2.set e.1 e.2 := by
        rw [hel]
        exact eqExceptL_set_l l e.2 st1 st2 h
      show setSeq (st1.set e.1 e.2) τ = setSeq (st2.set e.1 e.2) τ
      rw [hstep]
    · have h2 := eqExceptL_set l e.1 e.2 st1 st2 hel h
      have hw2 : keyWritten τ l := by
        unfold keyWritten at hw ⊢
        obtain ⟨e', he', hl⟩ := hw
        rcases List.mem_cons.mp he' with h1 | h1
        · exact absurd (h1 ▸ hl) hel
        · exact ⟨e', h1, hl⟩
      exact ih _ _ h2 hw2

/-- Replaying a write sequence a second time changes nothing: after the
first pass every written label holds its last written value, and the
replay rewrites exactly those values. -/
theorem setSeq_idem : ∀ (σ : List (List String × Nat)) (vs : VecState),
    setSeq (setSeq vs σ) σ = setSeq vs σ := by
  intro σ
  induction σ with
  | nil => intro vs; rfl
  | cons e τ ih =>
    intro vs
    show setSeq ((setSeq (vs.set e.1 e.2) τ).set e.1 e.2) τ
      = setSeq (vs.set e.1 e.2) τ
    by_cases hw : keyWritten τ e.1
    · have hin : keyIn (setSeq (vs.set e.1 e.2) τ) e.1 :=
        keyIn_setSeq τ _ _ (keyIn_set_self vs e.1 e.2)
      rw [setSeq_congr_written e.1 τ _ _ (eqExceptL_set_self e.1 e.2 _ hin) hw,
        ih]
    · have hall : allL (setSeq (vs.set e.1 e.2) τ) e.1 e.2 :=
        allL_setSeq e.1 e.2 τ hw _ (allL_set_self vs e.1 e.2)
      have hin : keyIn (setSeq (vs.set e.1 e.2) τ) e.1 :=
        keyIn_setSeq τ _ _ (keyIn_set_self vs e.1 e.2)
      rw [set_eq_self_of _ _ _ hin hall, ih]

/-- Characterization of variant P4's emission loop (lines 398-417): each
vec receives, in device order, the write sequence determined by the device
list alone; the driver-info vec is untouched. -/
theorem upd4_foldl (D : List Device4) : ∀ s : State4,
    D.foldl upd4 s =
      { info := s.info
        deviceInfo := setSeq s.deviceInfo (D.map entryInfo4)
        temperatures := setSeq s.temperatures (D.map (entryMinor4 Device4.Temperature))
        powerUsage := setSeq s.powerUsage (D.map (entryMinor4 Device4.PowerUsage))
        powerUsageAverage :=
          setSeq s.powerUsageAverage (D.map (entryMinor4 Device4.PowerUsageAverage))
        fanSpeed := setSeq s.fanSpeed (D.filterMap entryFan4)
        memoryTotal := setSeq s.memoryTotal (D.map (entryMinor4 Device4.MemoryTotal))
        memoryUsed := setSeq s.memoryUsed (D.map (entryMinor4 Device4.MemoryUsed))
        utilizationMemory :=
          setSeq s.utilizationMemory (D.map (entryMinor4 Device4.UtilizationMemory))
        utilizationGPU :=
          setSeq s.utilizationGPU (D.map (entryMinor4 Device4.UtilizationGPU))
        utilizationGPUAverage :=
          setSeq s.utilizationGPUAverage (D.map (entryMinor4 Device4.UtilizationGPUAverage))
        encUsage := setSeq s.encUsage (D.map (entryMinor4 Device4.EncUsage))
        decUsage := setSeq s.decUsage (D.map (entryMinor4 Device4.DecUsage))
        dutyCycle := setSeq s.dutyCycle (D.map (entryMinor4 Device4.DutyCycle))
        avgDuty := setSeq s.avgDuty (D.map (entryMinor4 Device4.AvgDuty)) } := by
  induction D with
  | nil => intro s; rfl
  | cons d t ih =>
    intro s
    rw [List.foldl_cons, ih]
    by_cases hf : d.FanSpeed.isPresent <;>
      simp [upd4, setSeq, entryInfo4, entryMinor4, entryFan4, hf,
        List.filterMap_cons]

/-- Running variant P4's emission loop a second time over the same device
list (after re-setting the driver-info series) leaves every vec unchanged. -/
theorem part4_idem_core (ver : String) (devices : List Device4) (s : State4) :
    devices.foldl upd4
      { devices.foldl upd4 { s with info := s.info.set [ver] 1 } with
        info :=
          (devices.foldl upd4 { s with info := s.info.set [ver] 1 }).info.set [ver] 1 }
    = devices.foldl upd4 { s with info := s.info.set [ver] 1 } := by
  simp only [upd4_foldl]
  simp only [State4.mk.injEq]
  exact ⟨set_set_same _ _ _, setSeq_idem _ _, setSeq_idem _ _, setSeq_idem _ _,
    setSeq_idem _ _, setSeq_idem _ _, setSeq_idem _ _, setSeq_idem _ _,
    setSeq_idem _ _, setSeq_idem _ _, setSeq_idem _ _, setSeq_idem _ _,
    setSeq_idem _ _, setSeq_idem _ _, setSeq_idem _ _⟩

section GaugeTheorems

variable {M : Type} [DecidableEq M] {D : Type}

theorem gApply_apply (es : List (M × Nat)) (s : M → VecState)
    (lbls : List String) (m : M) :
    gApply s lbls es m =
      (es.filter (fun e => e.1 = m)).foldl (fun vs e => vs.set lbls e.2) (s m) := by
  induction es generalizing s with
  | nil => rfl
  | cons e t ih =>
    show gApply (gSet s e.1 lbls e.2) lbls t m = _
    rw [ih]
    by_cases hm : e.1 = m
    · rw [List.filter_cons_of_pos (by simpa using hm), List.foldl_cons]
      have : gSet s e.1 lbls e.2 m = (s m).set lbls e.2 := by
        unfold gSet
        rw [if_pos hm.symm, hm]
      rw [this]
    · rw [List.filter_cons_of_neg (by simpa using hm)]
      have : gSet s e.1 lbls e.2 m = s m := by
        unfold gSet
        rw [if_neg (fun hc => hm hc.symm)]
      rw [this]

theorem gCollectDev_apply (rid : D → Option (List String))
    (cat : List (M × (D → Option Nat))) (a : AdapterG D)
    (s : M → VecState) (i : Nat) (m : M) :
    gCollectDev rid cat a s i m = gDevStep rid cat a m (s m) i := by
  cases hh : a.handle i with
  | none => simp [gCollectDev, gDevStep, hh]
  | some d =>
    cases hr : rid d with
    | none => simp [gCollectDev, gDevStep, hh, hr]
    | some lbls => simp [gCollectDev, gDevStep, hh, hr, gApply_apply]

theorem gFold_apply (rid : D → Option (List String))
    (cat : List (M × (D → Option Nat))) (a : AdapterG D)
    (l : List Nat) (s : M → VecState) (m : M) :
    (l.foldl (gCollectDev rid cat a) s) m =
      l.foldl (gDevStep rid cat a m) (s m) := by
  induction l generalizing s with
  | nil => rfl
  | cons i t ih =>
    simp only [List.foldl_cons]
    rw [ih, gCollectDev_apply]

theorem gEntries_mem (cat : List (M × (D → Option Nat))) (d : D) (m : M) (v : Nat) :
    (m, v) ∈ gEntries cat d ↔ ∃ rd, (m, rd) ∈ cat ∧ rd d = some v := by
  unfold gEntries
  rw [List.mem_filterMap]
  constructor
  · rintro ⟨⟨m1, rd⟩, hmr, hmap⟩
    obtain ⟨w, hw, heq⟩ := Option.map_eq_some'.mp hmap
    simp only [Prod.mk.injEq] at heq
    obtain ⟨hm1, hv⟩ := heq
    simp only at hm1 hw
    subst hm1 hv
    exact ⟨rd, hmr, hw⟩
  · rintro ⟨rd, hrd, hv⟩
    exact ⟨(m, rd), hrd, by simp [hv]⟩

theorem gDevStep_mem (rid : D → Option (List String))
    (cat : List (M × (D → Option Nat))) (a : AdapterG D) (m : M)
    (vs : VecState) (i : Nat) (c : List String × Nat)
    (h : c ∈ (gDevStep rid cat a m vs i).children) :
    c ∈ vs.children ∨
      ∃ d, a.handle i = some d ∧ rid d = some c.1 ∧ (m, c.2) ∈ gEntries cat d := by
  unfold gDevStep at h
  split at h
  · exact Or.inl h
  · rename_i d hd
    split at h
    · exact Or.inl h
    · rename_i lbls hl
      rw [← List.foldl_map (fun (e : M × Nat) => e.2)
          (fun (vs : VecState) (v : Nat) => vs.set lbls v)] at h
      rcases VecState.mem_setFold _ _ _ _ h with h1 | ⟨hlb, hv⟩
      · exact Or.inl h1
      · right
        simp only [List.mem_map] at hv
        obtain ⟨e, he, hev⟩ := hv
        have he1 : e.1 = m := by simpa using List.of_mem_filter he
        refine ⟨d, hd, by rw [hl, hlb], ?_⟩
        have hme : (m, c.2) = e := by rw [← he1, ← hev]
        rw [hme]
        exact List.mem_of_mem_filter he

/-- Any child of any vec after the device loop comes from some processed
index whose handle and identity resolved and whose entries produced the
child's value for that metric (the last writer). -/
theorem gFold_mem (rid : D → Option (List String))
    (cat : List (M × (D → Option Nat))) (a : AdapterG D) :
    ∀ (l : List Nat) (s : M → VecState) (m : M) (c : List String × Nat),
      c ∈ ((l.foldl (gCollectDev rid cat a) s) m).children →
      c ∈ (s m).children ∨
        ∃ i ∈ l, ∃ d, a.handle i = some d ∧ rid d = some c.1 ∧
          (m, c.2) ∈ gEntries cat d := by
  intro l
  induction l with
  | nil => intro s m c h; exact Or.inl h
  | cons i t ih =>
    intro s m c h
    simp only [List.foldl_cons] at h
    rcases ih _ m c h with h1 | ⟨j, hj, hrest⟩
    · rw [gCollectDev_apply] at h1
      rcases gDevStep_mem rid cat a m (s m) i c h1 with h2 | h2
      · exact Or.inl h2
      · exact Or.inr ⟨i, by simp, h2⟩
    · exact Or.inr ⟨j, List.mem_cons_of_mem _ hj, hrest⟩

theorem gOut_mem (keyOf : M → String) (st : M → VecState) :
    ∀ (order : List M) (smp : Sample), smp ∈ gOut keyOf st order →
      ∃ m ∈ order, ∃ c ∈ (st m).children, smp = ⟨keyOf m, c.1, c.2⟩ := by
  intro order
  induction order with
  | nil => intro smp h; cases h
  | cons m0 r ih =>
    intro smp h
    rcases List.mem_append.mp h with h1 | h1
    · simp only [VecState.collect, List.mem_map] at h1
      obtain ⟨c, hc, rfl⟩ := h1
      exact ⟨m0, by simp, c, hc, rfl⟩
    · obtain ⟨m, hm, c, hc, he⟩ := ih smp h1
      exact ⟨m, List.mem_cons_of_mem _ hm, c, hc, he⟩

theorem filterKey_gOut_nil (keyOf : M → String) (st : M → VecState) (k : String) :
    ∀ (order : List M), (∀ m ∈ order, keyOf m ≠ k) →
      filterKey k (gOut keyOf st order) = [] := by
  intro order
  induction order with
  | nil => intro _; rfl
  | cons m r ih =>
    intro h
    show filterKey k ((st m).collect (keyOf m) ++ gOut keyOf st r) = []
    rw [filterKey_append, filterKey_collect, if_neg (h m (by simp)),
      ih (fun m' hm' => h m' (List.mem_cons_of_mem _ hm'))]
    rfl

/-- The exposition restricted to one metric name is exactly that metric's
vec, provided metric names are not reused across vecs. -/
theorem filterKey_gOut (keyOf : M → String) (st : M → VecState) (m : M) :
    ∀ (order : List M), m ∈ order → order.Nodup →
      (∀ m' ∈ order, keyOf m' = keyOf m → m' = m) →
      filterKey (keyOf m) (gOut keyOf st order) = (st m).collect (keyOf m) := by
  intro order
  induction order with
  | nil => intro h; cases h
  | cons m0 r ih =>
    intro hmem hnd hinj
    show filterKey _ ((st m0).collect (keyOf m0) ++ gOut keyOf st r) = _
    rw [filterKey_append]
    by_cases h0 : m0 = m
    · subst h0
      rw [filterKey_collect, if_pos rfl,
        filterKey_gOut_nil keyOf st _ r
          (fun m' hm' hk =>
            (List.nodup_cons.mp hnd).1
              ((hinj m' (List.mem_cons_of_mem _ hm') hk) ▸ hm')),
        List.append_nil]
    · have hk0 : keyOf m0 ≠ keyOf m := fun hk => h0 (hinj m0 (by simp) hk)
      have hmem' : m ∈ r := by
        rcases List.mem_cons.mp hmem with h | h
        · exact absurd h.symm h0
        · exact h
      rw [filterKey_collect, if_neg hk0,
        ih hmem' (List.nodup_cons.mp hnd).2
          (fun m' hm' hk => hinj m' (List.mem_cons_of_mem _ hm') hk),
        List.nil_append]

/-- Every entry of `gEntries` carries the metric id of some catalog line. -/
theorem gEntries_fst (cat : List (M × (D → Option Nat))) (d : D)
    (e : M × Nat) (h : e ∈ gEntries cat d) : ∃ mr ∈ cat, e.1 = mr.1 := by
  unfold gEntries at h
  rw [List.mem_filterMap] at h
  obtain ⟨mr, hmr, hmap⟩ := h
  obtain ⟨w, _, heq⟩ := Option.map_eq_some'.mp hmap
  exact ⟨mr, hmr, by rw [← heq]⟩

/-- Master source-tracking lemma: every emitted sample of a `gSweep` is
either the device-count sample, or stems from an enumerated device whose
handle and identity resolved and whose entry list produced the sample's
metric and value. -/
theorem gSweep_srcOf (rid : D → Option (List String))
    (cat : List (M × (D → Option Nat))) (keyOf : M → String) (order : List M)
    (ck : String) (a : AdapterG D) (s : M → VecState) (smp : Sample)
    (h : smp ∈ (gSweep rid cat keyOf order ck a s).2) :
    (∃ n, a.deviceCount = some n ∧ smp = ⟨ck, [], n⟩) ∨
    (∃ n, a.deviceCount = some n ∧ ∃ m ∈ order, smp.key = keyOf m ∧
      ∃ i < n, ∃ d, a.handle i = some d ∧ rid d = some smp.labels ∧
        (m, smp.value) ∈ gEntries cat d) := by
  unfold gSweep at h
  cases hc : a.deviceCount with
  | none => rw [hc] at h; cases h
  | some n =>
    rw [hc] at h
    simp only at h
    rcases List.mem_cons.mp h with h1 | h1
    · exact Or.inl ⟨n, rfl, h1⟩
    · right
      obtain ⟨m, hm, c, hcm, he⟩ := gOut_mem keyOf _ order smp h1
      rcases gFold_mem rid cat a (List.range n) _ m c hcm with h2 | h2
      · simp [VecState.reset] at h2
      · obtain ⟨i, hi, d, hd, hrid, hent⟩ := h2
        exact ⟨n, rfl, m, hm, by rw [he], i, List.mem_range.mp hi, d, hd,
          by rw [he]; exact hrid, by rw [he]; exact hent⟩

end GaugeTheorems

theorem gEntries_cons {M D : Type} (mr : M × (D → Option Nat))
    (t : List (M × (D → Option Nat))) (d : D) :
    gEntries (mr :: t) d =
      ((mr.2 d).map (fun v => (mr.1, v))).toList ++ gEntries t d := by
  unfold gEntries
  rw [List.filterMap_cons]
  cases mr.2 d <;> simp

/-- If two devices agree on every reader whose metric lies outside `K`,
their entry lists filtered to any metric outside `K` coincide. -/
theorem gEntries_filter_congr {M D : Type} [DecidableEq M]
    (cat : List (M × (D → Option Nat))) (dv dv' : D) (m : M) (K : List M)
    (hK : ∀ mr ∈ cat, mr.1 ∉ K → mr.2 dv' = mr.2 dv) (hm : m ∉ K) :
    (gEntries cat dv').filter (fun e => e.1 = m)
      = (gEntries cat dv).filter (fun e => e.1 = m) := by
  induction cat with
  | nil => rfl
  | cons mr t ih =>
    have ht := ih (fun mr' hmr' => hK mr' (List.mem_cons_of_mem _ hmr'))
    rw [gEntries_cons, gEntries_cons, List.filter_append, List.filter_append, ht]
    congr 1
    by_cases h1 : mr.1 = m
    · rw [hK mr (by simp) (fun hin => hm (h1 ▸ hin))]
    · cases hx' : mr.2 dv' <;> cases hx : mr.2 dv <;> simp [h1]

theorem mem_deviceCallsA (fl : FlagsA) (h : Option DeviceA) (x : String)
    (hx : x ∈ deviceCallsA fl h) :
    x = "DeviceHandleByIndex" ∨ x ∈ ["MinorNumber", "UUID", "Name"] ∨
      x ∈ accessorCallsA fl := by
  unfold deviceCallsA at hx
  rcases List.mem_cons.mp hx with h1 | h1
  · exact Or.inl h1
  · right
    split at h1
    · cases h1
    · rcases List.mem_cons.mp h1 with h2 | h2
      · exact Or.inl (by simp [h2])
      · split at h2
        · cases h2
        · rcases List.mem_cons.mp h2 with h3 | h3
          · exact Or.inl (by simp [h3])
          · split at h3
            · cases h3
            · rcases List.mem_cons.mp h3 with h4 | h4
              · exact Or.inl (by simp [h4])
              · split at h4
                · cases h4
                · exact Or.inr h4

theorem keyOfA_inj : ∀ m m' : MetricIdA, keyOfA m = keyOfA m' → m = m' := by decide

theorem keyOfA_ne_countKeyA : ∀ m : MetricIdA, keyOfA m ≠ countKeyA := by decide

theorem collectOrderA_nodup : collectOrderA.Nodup := by decide

theorem collectOrderA_complete : ∀ m : MetricIdA, m ∈ collectOrderA := by decide

theorem keyOfB_inj : ∀ m m' : MetricIdB, keyOfB m = keyOfB m' → m = m' := by decide

theorem keyOfB_ne_countKeyB : ∀ m : MetricIdB, keyOfB m ≠ countKeyB := by decide

theorem collectOrderB_nodup : collectOrderB.Nodup := by decide

theorem collectOrderB_complete : ∀ m : MetricIdB, m ∈ collectOrderB := by decide

/-- Frame lemma for variant A: change one device's responses without
touching its identity or any reader outside a set `K` of metrics, and
every vec and every emitted sample of a metric outside `K` is unchanged. -/
theorem sweepA_frame :
    ∀ (fl : FlagsA) (a a' : AdapterG DeviceA) (i : Nat) (dv dv' : DeviceA)
      (K : List MetricIdA) (s s' : MetricIdA → VecState),
      a'.deviceCount = a.deviceCount →
      (∀ j, j ≠ i → a'.handle j = a.handle j) →
      a.handle i = some dv → a'.handle i = some dv' →
      resolveIdA dv' = resolveIdA dv →
      (∀ mr ∈ catalogA fl, mr.1 ∉ K → mr.2 dv' = mr.2 dv) →
      ∀ m ∉ K, (sweepA fl a' s').1 m = (sweepA fl a s).1 m ∧
        filterKey (keyOfA m) (sweepA fl a' s').2
          = filterKey (keyOfA m) (sweepA fl a s).2 := by
  intro fl a a' i dv dv' K s s' hdc hoth hi hi' hid hK m hm
  unfold sweepA gSweep
  rw [hdc]
  cases hc : a.deviceCount with
  | none => exact ⟨rfl, rfl⟩
  | some n =>
    dsimp only
    have hstep : ∀ (vs : VecState), ∀ j ∈ List.range n,
        gDevStep resolveIdA (catalogA fl) a' m vs j
          = gDevStep resolveIdA (catalogA fl) a m vs j := by
      intro vs j _
      by_cases hji : j = i
      · subst hji
        unfold gDevStep
        rw [hi, hi']
        dsimp only
        rw [hid]
        cases hr : resolveIdA dv with
        | none => rfl
        | some lbls =>
          rw [gEntries_filter_congr (catalogA fl) dv dv' m K hK hm]
      · unfold gDevStep
        rw [hoth j hji]
    have hfold :
        ((List.range n).foldl (gCollectDev resolveIdA (catalogA fl) a')
          (fun _ => VecState.reset)) m
        = ((List.range n).foldl (gCollectDev resolveIdA (catalogA fl) a)
          (fun _ => VecState.reset)) m := by
      rw [gFold_apply, gFold_apply]
      exact foldl_congr_fn _ _ _ (fun j hj b => hstep b j hj) _
    refine ⟨hfold, ?_⟩
    rw [filterKey_cons, filterKey_cons,
      if_neg (keyOfA_ne_countKeyA m).symm, if_neg (keyOfA_ne_countKeyA m).symm,
      filterKey_gOut keyOfA _ m collectOrderA (collectOrderA_complete m)
        collectOrderA_nodup (fun m' _ hk => keyOfA_inj m' m hk),
      filterKey_gOut keyOfA _ m collectOrderA (collectOrderA_complete m)
        collectOrderA_nodup (fun m' _ hk => keyOfA_inj m' m hk),
      hfold]

/-- Absence lemma for variant A: if no catalog reader for metric `m`
succeeds on device `i`, and no other device resolves to the same label
tuple, then no `(m, device i)` sample is emitted. -/
theorem sweepA_absent :
    ∀ (fl : FlagsA) (a' : AdapterG DeviceA) (i : Nat) (dv' : DeviceA)
      (m : MetricIdA) (lbls : List String) (s' : MetricIdA → VecState),
      a'.handle i = some dv' →
      (∀ mr ∈ catalogA fl, mr.1 = m → mr.2 dv' = none) →
      resolveIdA dv' = some lbls →
      (∀ j d, a'.handle j = some d → resolveIdA d = some lbls → j = i) →
      ∀ v, (⟨keyOfA m, lbls, v⟩ : Sample) ∉ (sweepA fl a' s').2 := by
  intro fl a' i dv' m lbls s' hi' hnone hlbl huniq v hmem
  rcases gSweep_srcOf resolveIdA (catalogA fl) keyOfA collectOrderA countKeyA
      a' s' _ hmem with ⟨n, _, hs⟩ | ⟨n, _, m', _, hk, j, _, d, hd, hrid, hent⟩
  · have : keyOfA m = countKeyA := congrArg Sample.key hs
    exact keyOfA_ne_countKeyA m this
  · have hm' : m' = m := keyOfA_inj m' m hk.symm
    subst hm'
    have hji : j = i := huniq j d hd hrid
    subst hji
    rw [hi'] at hd
    cases hd
    obtain ⟨rd, hrd, hval⟩ := (gEntries_mem (catalogA fl) dv' m' v).mp hent
    have hz : rd dv' = none := hnone (m', rd) hrd rfl
    rw [hz] at hval
    cases hval

/-- Frame lemma for variant B: change one device's responses without
touching its identity or any reader outside a set `K` of metrics, and
every vec and every emitted sample of a metric outside `K` is unchanged. -/
theorem sweepB_frame :
    ∀ (fl : FlagsB) (a a' : AdapterG DeviceB) (i : Nat) (dv dv' : DeviceB)
      (K : List MetricIdB) (s s' : MetricIdB → VecState),
      a'.deviceCount = a.deviceCount →
      (∀ j, j ≠ i → a'.handle j = a.handle j) →
      a.handle i = some dv → a'.handle i = some dv' →
      resolveIdB dv' = resolveIdB dv →
      (∀ mr ∈ catalogB fl, mr.1 ∉ K → mr.2 dv' = mr.2 dv) →
      ∀ m ∉ K, (sweepB fl a' s').1 m = (sweepB fl a s).1 m ∧
        filterKey (keyOfB m) (sweepB fl a' s').2
          = filterKey (keyOfB m) (sweepB fl a s).2 := by
  intro fl a a' i dv dv' K s s' hdc hoth hi hi' hid hK m hm
  unfold sweepB gSweep
  rw [hdc]
  cases hc : a.deviceCount with
  | none => exact ⟨rfl, rfl⟩
  | some n =>
    dsimp only
    have hstep : ∀ (vs : VecState), ∀ j ∈ List.range n,
        gDevStep resolveIdB (catalogB fl) a' m vs j
          = gDevStep resolveIdB (catalogB fl) a m vs j := by
      intro vs j _
      by_cases hji : j = i
      · subst hji
        unfold gDevStep
        rw [hi, hi']
        dsimp only
        rw [hid]
        cases hr : resolveIdB dv with
        | none => rfl
        | some lbls =>
          rw [gEntries_filter_congr (catalogB fl) dv dv' m K hK hm]
      · unfold gDevStep
        rw [hoth j hji]
    have hfold :
        ((List.range n).foldl (gCollectDev resolveIdB (catalogB fl) a')
          (fun _ => VecState.reset)) m
        = ((List.range n).foldl (gCollectDev resolveIdB (catalogB fl) a)
          (fun _ => VecState.reset)) m := by
      rw [gFold_apply, gFold_apply]
      exact foldl_congr_fn _ _ _ (fun j hj b => hstep b j hj) _
    refine ⟨hfold, ?_⟩
    rw [filterKey_cons, filterKey_cons,
      if_neg (keyOfB_ne_countKeyB m).symm, if_neg (keyOfB_ne_countKeyB m).symm,
      filterKey_gOut keyOfB _ m collectOrderB (collectOrderB_complete m)
        collectOrderB_nodup (fun m' _ hk => keyOfB_inj m' m hk),
      filterKey_gOut keyOfB _ m collectOrderB (collectOrderB_complete m)
        collectOrderB_nodup (fun m' _ hk => keyOfB_inj m' m hk),
      hfold]

/-- Absence lemma for variant B: if no catalog reader for metric `m`
succeeds on device `i`, and no other device resolves to the same label
tuple, then no `(m, device i)` sample is emitted. -/
theorem sweepB_absent :
    ∀ (fl : FlagsB) (a' : AdapterG DeviceB) (i : Nat) (dv' : DeviceB)
      (m : MetricIdB) (lbls : List String) (s' : MetricIdB → VecState),
      a'.handle i = some dv' →
      (∀ mr ∈ catalogB fl, mr.1 = m → mr.2 dv' = none) →
      resolveIdB dv' = some lbls →
      (∀ j d, a'.handle j = some d → resolveIdB d = some lbls → j = i) →
      ∀ v, (⟨keyOfB m, lbls, v⟩ : Sample) ∉ (sweepB fl a' s').2 := by
  intro fl a' i dv' m lbls s' hi' hnone hlbl huniq v hmem
  rcases gSweep_srcOf resolveIdB (catalogB fl) keyOfB collectOrderB countKeyB
      a' s' _ hmem with ⟨n, _, hs⟩ | ⟨n, _, m', _, hk, j, _, d, hd, hrid, hent⟩
  · have hck : keyOfB m = countKeyB := congrArg Sample.key hs
    exact keyOfB_ne_countKeyB m hck
  · have hm' : m' = m := keyOfB_inj m' m hk.symm
    subst hm'
    have hji : j = i := huniq j d hd hrid
    subst hji
    rw [hi'] at hd
    cases hd
    obtain ⟨rd, hrd, hval⟩ := (gEntries_mem (catalogB fl) dv' m' v).mp hent
    have hz : rd dv' = none := hnone (m', rd) hrd rfl
    rw [hz] at hval
    cases hval

/-- Every catalog reader of a watt/joule metric is its raw reading divided
by 1000 (unsigned), whichever flags are set. -/
theorem catalogB_watt (fl : FlagsB) (m : MetricIdB) (rd : DeviceB → Option Nat)
    (hm : m ∈ wattMetricsB) (h : (m, rd) ∈ catalogB fl) :
    ∀ d, rd d = (rawOfB m d).map (fun v => v / 1000) := by
  rcases fl with ⟨f1, f2, f3⟩
  cases f1 <;> cases f2 <;> cases f3 <;> fin_cases hm <;>
  · simp [catalogB, Prod.mk.injEq] at h
    all_goals
      subst h
      intro d
      simp only [rawOfB, Option.map_map] <;> rfl

/-! ## Claim theorems -/

/-- C1: FALSE as stated.  The `main.go` Collectors define no collector-health
metric at all: when `DeviceCount()` fails, variant A's `Collect` returns
after the resets without emitting anything, so the sweep has zero samples
rather than exactly one unhealthy health-signal sample. -/
theorem C1_counterexample :
    aAC1.deviceCount = none ∧
    (sweepA ⟨false⟩ aAC1 (fun _ => VecState.reset)).2 = [] :=
  ⟨rfl, rfl⟩

/-- C1 (amended): when `DeviceCount()` fails, the part_004 Collector emits
exactly one sample, the `up` health signal with value 0 (unhealthy), and no
device-count or per-device sample; the two `main.go` Collectors, which have
no health metric, emit no samples at all in such a sweep. -/
theorem C1_theorem :
    (∀ (a : Adapter4) (s : State4), a.deviceCount = none →
      (part4Collect a s).2 = [⟨"nvidia_gpu_up", [], 0⟩]) ∧
    (∀ (fl : FlagsA) (a : AdapterG DeviceA) (s : MetricIdA → VecState),
      a.deviceCount = none → (sweepA fl a s).2 = []) ∧
    (∀ (fl : FlagsB) (a : AdapterG DeviceB) (s : MetricIdB → VecState),
      a.deviceCount = none → (sweepB fl a s).2 = []) := by
  refine ⟨?_, ?_, ?_⟩
  · intro a s h
    cases hv : a.driverVersion <;> simp [part4Collect, collectMetrics4, hv, h]
  · intro fl a s h
    simp [sweepA, gSweep, h]
  · intro fl a s h
    simp [sweepB, gSweep, h]

/-- C1 witness: the amended statement applied to concrete failing adapters. -/
theorem C1_witness :
    (part4Collect a4C1 initState4).2 = [⟨"nvidia_gpu_up", [], 0⟩] ∧
    (sweepA ⟨false⟩ aAC1 (fun _ => VecState.reset)).2 = [] ∧
    (sweepB ⟨true, true, true⟩ aBC1 (fun _ => VecState.reset)).2 = [] :=
  ⟨C1_theorem.1 a4C1 initState4 rfl,
   C1_theorem.2.1 ⟨false⟩ aAC1 _ rfl,
   C1_theorem.2.2 ⟨true, true, true⟩ aBC1 _ rfl⟩

/-- C2: the part_004 emission loop guards only the fan-speed `Set` with
`isPresent`; for every other metric the `MaybeMetric`'s value is emitted
unconditionally, so a failed temperature accessor (present=false) still
yields a temperature sample with value 0 — the spec's edge-case policy
("never emitted as 0") is the clear intent, and the code drops the guard. -/
theorem C2_theorem :
    (mkDevice4 0 0 "GPU-2f7c" "GeForce GTX 1080" d4C2).Temperature.isPresent = false ∧
    ⟨"nvidia_gpu_temperatures", ["0"], 0⟩ ∈ (part4Collect a4C2 initState4).2 := by
  decide

/-- C3: FALSE as stated for the part_004 Collector, which never resets its
GaugeVecs: device minor 3 contributes temperature 65 in sweep 1, the second
sweep's enumeration returns 0 devices, yet the stale series labelled "3"
is still emitted in sweep 2. -/
theorem C3_counterexample :
    a4C3b.deviceCount = some 0 ∧
    ⟨"nvidia_gpu_temperatures", ["3"], 65⟩ ∈ (part4Collect a4C3 initState4).2 ∧
    ⟨"nvidia_gpu_temperatures", ["3"], 65⟩ ∈
      (part4Collect a4C3b (part4Collect a4C3 initState4).1).2 := by
  decide

/-- C3 (amended): the `main.go` Collectors clear every accumulated vec at
the start of each sweep, so every labelled sample of a sweep's output comes
from a device resolved during that same sweep — a device absent from the
current enumeration leaves no sample (no ghosting), whatever the previous
state was.  The part_004 Collector performs no reset, and stale labelled
series from earlier sweeps persist in later outputs. -/
theorem C3_theorem :
    (∀ (fl : FlagsA) (a : AdapterG DeviceA) (s : MetricIdA → VecState)
      (smp : Sample), smp ∈ (sweepA fl a s).2 → smp.labels ≠ [] →
      ∃ n, a.deviceCount = some n ∧ ∃ i < n, ∃ d, a.handle i = some d ∧
        resolveIdA d = some smp.labels) ∧
    (∀ (fl : FlagsB) (a : AdapterG DeviceB) (s : MetricIdB → VecState)
      (smp : Sample), smp ∈ (sweepB fl a s).2 → smp.labels ≠ [] →
      ∃ n, a.deviceCount = some n ∧ ∃ i < n, ∃ d, a.handle i = some d ∧
        resolveIdB d = some smp.labels) := by
  constructor
  · intro fl a s smp h hl
    rcases gSweep_srcOf resolveIdA (catalogA fl) keyOfA collectOrderA countKeyA
        a s smp h with ⟨n, _, hs⟩ | ⟨n, hn, _, _, _, i, hi, d, hd, hrid, _⟩
    · exact absurd (by rw [hs]) hl
    · exact ⟨n, hn, i, hi, d, hd, hrid⟩
  · intro fl a s smp h hl
    rcases gSweep_srcOf resolveIdB (catalogB fl) keyOfB collectOrderB countKeyB
        a s smp h with ⟨n, _, hs⟩ | ⟨n, hn, _, _, _, i, hi, d, hd, hrid, _⟩
    · exact absurd (by rw [hs]) hl
    · exact ⟨n, hn, i, hi, d, hd, hrid⟩

/-- C3 witness: the amended statement applied to a concrete sweep and its
temperature sample. -/
theorem C3_witness :
    (⟨"nvidia_gpu_temperature_celsius", ["3", "GPU-76aa", "Tesla K80"], 65⟩ : Sample)
      ∈ (sweepA ⟨false⟩ aAC3w (fun _ => VecState.reset)).2 ∧
    ∃ n, aAC3w.deviceCount = some n ∧ ∃ i < n, ∃ d, aAC3w.handle i = some d ∧
      resolveIdA d = some ["3", "GPU-76aa", "Tesla K80"] :=
  ⟨by decide,
   C3_theorem.1 ⟨false⟩ aAC3w (fun _ => VecState.reset)
     ⟨"nvidia_gpu_temperature_celsius", ["3", "GPU-76aa", "Tesla K80"], 65⟩
     (by decide) (by decide)⟩

/-- C4: FALSE as stated for the part_004 Collector: its device-count gauge
is set to `len(data.Devices)`, the number of devices that survived handle
and identity resolution, not to the enumerated count.  With
`DeviceCount() = 2` and device 1's handle failing, the emitted device-count
sample has value 1, not 2. -/
theorem C4_counterexample :
    a4C4.deviceCount = some 2 ∧
    filterKey "nvidia_gpu_device_count" (part4Collect a4C4 initState4).2
      = [⟨"nvidia_gpu_device_count", [], 1⟩] := by
  decide

/-- C4 (amended): in both `main.go` variants a successful enumeration of
`n` devices yields exactly one device-count sample with value `n`,
whatever happens to the individual devices afterwards; in the part_004
variant the single device-count sample's value is the number of devices
that passed handle and identity resolution. -/
theorem C4_theorem :
    (∀ (fl : FlagsA) (a : AdapterG DeviceA) (s : MetricIdA → VecState) (n : Nat),
      a.deviceCount = some n →
      filterKey countKeyA (sweepA fl a s).2 = [⟨countKeyA, [], n⟩]) ∧
    (∀ (fl : FlagsB) (a : AdapterG DeviceB) (s : MetricIdB → VecState) (n : Nat),
      a.deviceCount = some n →
      filterKey countKeyB (sweepB fl a s).2 = [⟨countKeyB, [], n⟩]) ∧
    (∀ (a : Adapter4) (s : State4) (version : String) (devices : List Device4),
      collectMetrics4 a = some (version, devices) →
      filterKey "nvidia_gpu_device_count" (part4Collect a s).2
        = [⟨"nvidia_gpu_device_count", [], devices.length⟩]) := by
  refine ⟨?_, ?_, ?_⟩
  · intro fl a s n h
    unfold sweepA gSweep
    rw [h]
    dsimp only
    rw [filterKey_cons, if_pos rfl,
      filterKey_gOut_nil keyOfA _ countKeyA collectOrderA
        (fun m _ => keyOfA_ne_countKeyA m)]
  · intro fl a s n h
    unfold sweepB gSweep
    rw [h]
    dsimp only
    rw [filterKey_cons, if_pos rfl,
      filterKey_gOut_nil keyOfB _ countKeyB collectOrderB
        (fun m _ => keyOfB_ne_countKeyB m)]
  · intro a s version devices h
    unfold part4Collect
    rw [h]
    dsimp only
    rw [filterKey_cons, if_pos rfl]
    have hup : filterKey "nvidia_gpu_device_count"
        [(⟨"nvidia_gpu_up", [], 1⟩ : Sample)] = [] := by decide
    simp only [filterKey_append, filterKey_collect, hup]
    simp

/-- C4 witness: the amended statement applied to concrete adapters,
including one where a device fails handle resolution. -/
theorem C4_witness :
    (aAC3w.deviceCount = some 1 ∧
      filterKey countKeyA (sweepA ⟨false⟩ aAC3w (fun _ => VecState.reset)).2
        = [⟨countKeyA, [], 1⟩]) ∧
    (collectMetrics4 a4C4
        = some ("418.67", [mkDevice4 0 0 "GPU-4d2e" "Tesla V100" d4C4]) ∧
      filterKey "nvidia_gpu_device_count" (part4Collect a4C4 initState4).2
        = [⟨"nvidia_gpu_device_count", [],
            [mkDevice4 0 0 "GPU-4d2e" "Tesla V100" d4C4].length⟩]) :=
  ⟨⟨rfl, C4_theorem.1 ⟨false⟩ aAC3w (fun _ => VecState.reset) 1 rfl⟩,
   ⟨by decide,
    C4_theorem.2.2 a4C4 initState4 "418.67"
      [mkDevice4 0 0 "GPU-4d2e" "Tesla V100" d4C4] (by decide)⟩⟩

/-- C5: the claim is right (and variant A implements it), but part_004
declares `-disable-fanspeed` ("Disable fanspeed metric", line 25) and never
reads it: `collectMetrics` calls `FanSpeed()` unconditionally on every
resolved device (lines 138-141) and the sample is emitted, so running with
the option disabled changes nothing — the code contradicts its own flag
documentation.  In variant A with the flag set, the accessor is never
invoked and no fan-speed sample is emitted in any sweep. -/
theorem C5_theorem :
    ("FanSpeed" ∈ invoked4 a4C5 ∧
      (⟨"nvidia_gpu_fanspeed", ["0"], 51⟩ : Sample)
        ∈ (part4Collect a4C5 initState4).2) ∧
    (∀ (a : AdapterG DeviceA), "FanSpeed" ∉ invokedA ⟨true⟩ a) ∧
    (∀ (a : AdapterG DeviceA) (s : MetricIdA → VecState),
      filterKey "nvidia_gpu_fanspeed_percent" (sweepA ⟨true⟩ a s).2 = []) := by
  refine ⟨by decide, ?_, ?_⟩
  · intro a h
    unfold invokedA at h
    rcases List.mem_cons.mp h with h1 | h1
    · exact absurd h1 (by decide)
    · split at h1
      · cases h1
      · rw [List.mem_flatMap] at h1
        obtain ⟨i, _, hcall⟩ := h1
        rcases mem_deviceCallsA ⟨true⟩ (a.handle i) _ hcall with h2 | h2 | h2
        · exact absurd h2 (by decide)
        · exact absurd h2 (by decide)
        · exact absurd h2 (by decide)
  · intro a s
    unfold sweepA gSweep
    cases hc : a.deviceCount with
    | none => rfl
    | some n =>
      dsimp only
      rw [filterKey_cons, if_neg (by simp [countKeyA])]
      have hfan : keyOfA MetricIdA.fanSpeed = "nvidia_gpu_fanspeed_percent" := rfl
      rw [← hfan,
        filterKey_gOut keyOfA _ MetricIdA.fanSpeed collectOrderA (by decide)
          collectOrderA_nodup (fun m' _ hk => keyOfA_inj m' _ hk),
        gFold_apply]
      have hno : ∀ mr ∈ catalogA (⟨true⟩ : FlagsA), mr.1 ≠ MetricIdA.fanSpeed := by
        decide
      have hstep : ∀ (vs : VecState), ∀ i ∈ List.range n,
          gDevStep resolveIdA (catalogA ⟨true⟩) a MetricIdA.fanSpeed vs i = vs := by
        intro vs i _
        unfold gDevStep
        cases hh : a.handle i with
        | none => rfl
        | some d =>
          dsimp only
          cases hr : resolveIdA d with
          | none => rfl
          | some lbls =>
            have hemp : (gEntries (catalogA ⟨true⟩) d).filter
                (fun e => e.1 = MetricIdA.fanSpeed) = [] := by
              apply List.filter_eq_nil_iff.mpr
              intro e he
              obtain ⟨mr, hmr, hfst⟩ := gEntries_fst _ d e he
              simp only [decide_eq_true_eq]
              rw [hfst]
              exact hno mr hmr
            rw [hemp]
            rfl
      rw [foldl_fixed_fn _ _ hstep]
      rfl

/-- C5 witness: with `-disable-fanspeed` set, a concrete variant-A sweep
never calls `FanSpeed()` and exposes no fan-speed series. -/
theorem C5_witness :
    "FanSpeed" ∉ invokedA ⟨true⟩ aAC3w ∧
    filterKey "nvidia_gpu_fanspeed_percent"
      (sweepA ⟨true⟩ aAC3w (fun _ => VecState.reset)).2 = [] :=
  ⟨C5_theorem.2.1 aAC3w, C5_theorem.2.2 aAC3w (fun _ => VecState.reset)⟩

/-- C6: FALSE as stated for the part_004 Collector.  In sweep 2 device 7's
`UUID()` fails, so the device is skipped — yet a sample bearing its label
set (minor "7"), left over from sweep 1 in the never-reset vecs, still
appears in sweep 2's output. -/
theorem C6_counterexample :
    (a4C6b.handle 0 = some d4C6b ∧ d4C6b.uuid = none) ∧
    (⟨"nvidia_gpu_temperatures", ["7"], 66⟩ : Sample) ∈
      (part4Collect a4C6b (part4Collect a4C6 initState4).1).2 := by
  decide

/-- C6 (amended): if handle resolution or an identity accessor fails for
device `i`, the sweep's result is exactly that of an adapter in which
device `i` is absent altogether: in both `main.go` variants the whole
`Collect` result (final state and samples) is unchanged, and in part_004
`collectMetrics` builds the same device list — the current sweep
contributes nothing for the failed device and proceeds with the remaining
indices.  In part_004, however, samples bearing the device's labels from
previous sweeps may still be emitted, since the vecs are never reset. -/
theorem C6_theorem :
    (∀ (fl : FlagsA) (a : AdapterG DeviceA) (s : MetricIdA → VecState) (i : Nat),
      devUnresolvedA a i → sweepA fl a s = sweepA fl (dropDevA a i) s) ∧
    (∀ (fl : FlagsB) (a : AdapterG DeviceB) (s : MetricIdB → VecState) (i : Nat),
      devUnresolvedB a i → sweepB fl a s = sweepB fl (dropDevB a i) s) ∧
    (∀ (a : Adapter4) (i : Nat), devUnresolved4 a i →
      collectMetrics4 a = collectMetrics4 (dropDev4 a i)) := by
  refine ⟨?_, ?_, ?_⟩
  · intro fl a s i h
    have hfold : ∀ s0 : MetricIdA → VecState, ∀ l : List Nat,
        l.foldl (gCollectDev resolveIdA (catalogA fl) a) s0
          = l.foldl (gCollectDev resolveIdA (catalogA fl) (dropDevA a i)) s0 := by
      intro s0 l
      apply foldl_congr_fn
      intro j _ b
      by_cases hji : j = i
      · subst hji
        cases hh : a.handle j with
        | none => simp [gCollectDev, dropDevA, hh]
        | some d => simp [gCollectDev, dropDevA, hh, h d hh]
      · simp [gCollectDev, dropDevA, hji]
    unfold sweepA gSweep
    have hdc : (dropDevA a i).deviceCount = a.deviceCount := rfl
    rw [hdc]
    cases hc : a.deviceCount with
    | none => rfl
    | some n =>
      dsimp only
      rw [hfold]
  · intro fl a s i h
    have hfold : ∀ s0 : MetricIdB → VecState, ∀ l : List Nat,
        l.foldl (gCollectDev resolveIdB (catalogB fl) a) s0
          = l.foldl (gCollectDev resolveIdB (catalogB fl) (dropDevB a i)) s0 := by
      intro s0 l
      apply foldl_congr_fn
      intro j _ b
      by_cases hji : j = i
      · subst hji
        cases hh : a.handle j with
        | none => simp [gCollectDev, dropDevB, hh]
        | some d => simp [gCollectDev, dropDevB, hh, h d hh]
      · simp [gCollectDev, dropDevB, hji]
    unfold sweepB gSweep
    have hdc : (dropDevB a i).deviceCount = a.deviceCount := rfl
    rw [hdc]
    cases hc : a.deviceCount with
    | none => rfl
    | some n =>
      dsimp only
      rw [hfold]
  · intro a i h
    unfold collectMetrics4
    have hdv : (dropDev4 a i).driverVersion = a.driverVersion := rfl
    have hdc : (dropDev4 a i).deviceCount = a.deviceCount := rfl
    rw [hdv, hdc]
    cases hv : a.driverVersion with
    | none => rfl
    | some version =>
      cases hc : a.deviceCount with
      | none => rfl
      | some n =>
        dsimp only
        refine congrArg (fun l => some (version, l)) ?_
        apply filterMap_congr_fn
        intro j _
        by_cases hji : j = i
        · subst hji
          cases hh : a.handle j with
          | none => simp [dropDev4, hh]
          | some d =>
            cases hu : d.uuid <;> cases hn : d.name <;> cases hm : d.minorNumber <;>
              simp [dropDev4, hh] <;>
              rcases h d hh with h1 | h1 | h1 <;> simp_all
        · simp [dropDev4, hji]

/-- C6 witness: the amended statement applied to a variant-A adapter whose
device 0 has a failing `Name()` accessor, to a variant-B adapter whose
device 0 has a failing `Name()` accessor, and to the P4 adapter whose
device 0 has a failing `UUID()` accessor. -/
theorem C6_witness :
    (sweepA ⟨false⟩ aAC6w (fun _ => VecState.reset)
      = sweepA ⟨false⟩ (dropDevA aAC6w 0) (fun _ => VecState.reset)) ∧
    (sweepB ⟨true, true, true⟩ aBC6w (fun _ => VecState.reset)
      = sweepB ⟨true, true, true⟩ (dropDevB aBC6w 0) (fun _ => VecState.reset)) ∧
    collectMetrics4 a4C6b = collectMetrics4 (dropDev4 a4C6b 0) :=
  ⟨C6_theorem.1 ⟨false⟩ aAC6w _ 0
    (fun d hd => by
      simp [aAC6w] at hd
      subst hd
      rfl),
   C6_theorem.2.1 ⟨true, true, true⟩ aBC6w _ 0
    (fun d hd => by
      simp [aBC6w] at hd
      subst hd
      rfl),
   C6_theorem.2.2 a4C6b 0
    (fun d hd => by
      simp [a4C6b, a4C6] at hd
      subst hd
      exact Or.inl rfl)⟩

/-- C7: FALSE as stated.  In variant A the two memory metrics share the
single `MemoryInfo()` accessor: when that accessor fails for the metric
`memory_used_bytes`, the sample of the *different* metric
`memory_total_bytes` also disappears, so a single-accessor failure changes
more than that one sample. -/
theorem C7_counterexample :
    dAC7f = { dAC7 with memoryInfo := none } ∧
    filterKey "nvidia_gpu_memory_total_bytes"
        (sweepA ⟨false⟩ aAC7 (fun _ => VecState.reset)).2
      = [⟨"nvidia_gpu_memory_total_bytes", ["2", "GPU-7aaf", "Tesla T4"], 16000⟩] ∧
    filterKey "nvidia_gpu_memory_total_bytes"
        (sweepA ⟨false⟩ aAC7f (fun _ => VecState.reset)).2 = [] := by
  decide

/-- C7 (amended): the metric-level failure isolation holds of the two
`main.go` variants, with the failure unit being the shared accessor call
rather than the single metric — an accessor feeding several metrics
(`MemoryInfo`, `Bar1MemoryInfo`, `UtilizationRates`,
`PowerLimitConstraints`, `PowerLimits`, `TemperatureThresholds`,
`EncoderCapacity`) drops the samples of all of them when it fails.
Parts 1 and 3 (variants A and B): if two adapters differ only in device
`i`'s non-identity readers for metrics in `K`, then for every metric
outside `K` every vec and every emitted sample — of device `i` and of
every other device — is identical.  Parts 2 and 4: a metric `m` none of
whose readers succeeds on device `i` contributes no `(m, i)` sample at
all (provided no other device resolves to the same label tuple).
Part 5: the part_004 variant violates even the no-sample half of the
claim — a failing `PowerUsage()` accessor yields `isPresent = false`, yet
the emission loop still `Set`s the vec with the zero value, so a
`power_usage` sample with value 0 for that device is emitted. -/
theorem C7_theorem :
    (∀ (fl : FlagsA) (a a' : AdapterG DeviceA) (i : Nat) (dv dv' : DeviceA)
       (K : List MetricIdA) (s s' : MetricIdA → VecState),
      a'.deviceCount = a.deviceCount →
      (∀ j, j ≠ i → a'.handle j = a.handle j) →
      a.handle i = some dv → a'.handle i = some dv' →
      resolveIdA dv' = resolveIdA dv →
      (∀ mr ∈ catalogA fl, mr.1 ∉ K → mr.2 dv' = mr.2 dv) →
      ∀ m ∉ K, (sweepA fl a' s').1 m = (sweepA fl a s).1 m ∧
        filterKey (keyOfA m) (sweepA fl a' s').2
          = filterKey (keyOfA m) (sweepA fl a s).2) ∧
    (∀ (fl : FlagsA) (a' : AdapterG DeviceA) (i : Nat) (dv' : DeviceA)
       (m : MetricIdA) (lbls : List String) (s' : MetricIdA → VecState),
      a'.handle i = some dv' →
      (∀ mr ∈ catalogA fl, mr.1 = m → mr.2 dv' = none) →
      resolveIdA dv' = some lbls →
      (∀ j d, a'.handle j = some d → resolveIdA d = some lbls → j = i) →
      ∀ v, (⟨keyOfA m, lbls, v⟩ : Sample) ∉ (sweepA fl a' s').2) ∧
    (∀ (fl : FlagsB) (a a' : AdapterG DeviceB) (i : Nat) (dv dv' : DeviceB)
       (K : List MetricIdB) (s s' : MetricIdB → VecState),
      a'.deviceCount = a.deviceCount →
      (∀ j, j ≠ i → a'.handle j = a.handle j) →
      a.handle i = some dv → a'.handle i = some dv' →
      resolveIdB dv' = resolveIdB dv →
      (∀ mr ∈ catalogB fl, mr.1 ∉ K → mr.2 dv' = mr.2 dv) →
      ∀ m ∉ K, (sweepB fl a' s').1 m = (sweepB fl a s).1 m ∧
        filterKey (keyOfB m) (sweepB fl a' s').2
          = filterKey (keyOfB m) (sweepB fl a s).2) ∧
    (∀ (fl : FlagsB) (a' : AdapterG DeviceB) (i : Nat) (dv' : DeviceB)
       (m : MetricIdB) (lbls : List String) (s' : MetricIdB → VecState),
      a'.handle i = some dv' →
      (∀ mr ∈ catalogB fl, mr.1 = m → mr.2 dv' = none) →
      resolveIdB dv' = some lbls →
      (∀ j d, a'.handle j = some d → resolveIdB d = some lbls → j = i) →
      ∀ v, (⟨keyOfB m, lbls, v⟩ : Sample) ∉ (sweepB fl a' s').2) ∧
    ((mkDevice4 0 1 "GPU-7e09" "GeForce GTX 1070" d4C7).PowerUsage.isPresent
        = false ∧
      (⟨"nvidia_gpu_power_usage", ["1"], 0⟩ : Sample)
        ∈ (part4Collect a4C7 initState4).2) :=
  ⟨sweepA_frame, sweepA_absent, sweepB_frame, sweepB_absent, by decide⟩

/-- C7 witness: the amended statement applied to the variant-A
`MemoryInfo()` failure scenario with `K` the two memory metrics (the
temperature samples are untouched and no used-memory sample for the
device exists), and to the variant-B `PowerLimits()` failure scenario
with `K` the two power-limit metrics that accessor feeds. -/
theorem C7_witness :
    ((MetricIdA.temperature ∉ [MetricIdA.usedMemory, MetricIdA.totalMemory] ∧
      filterKey (keyOfA .temperature)
          (sweepA ⟨false⟩ aAC7f (fun _ => VecState.reset)).2
        = filterKey (keyOfA .temperature)
          (sweepA ⟨false⟩ aAC7 (fun _ => VecState.reset)).2) ∧
    (⟨keyOfA .usedMemory, ["2", "GPU-7aaf", "Tesla T4"], 4000⟩ : Sample)
      ∉ (sweepA ⟨false⟩ aAC7f (fun _ => VecState.reset)).2) ∧
    ((MetricIdB.temperature
        ∉ [MetricIdB.powerLimitManagement, MetricIdB.powerLimitEnforced] ∧
      filterKey (keyOfB .temperature)
          (sweepB ⟨true, true, true⟩ aBC7f (fun _ => VecState.reset)).2
        = filterKey (keyOfB .temperature)
          (sweepB ⟨true, true, true⟩ aBC7 (fun _ => VecState.reset)).2) ∧
    (⟨keyOfB .powerLimitManagement, ["4", "GPU-a1b2", "Tesla V100"], 200⟩ : Sample)
      ∉ (sweepB ⟨true, true, true⟩ aBC7f (fun _ => VecState.reset)).2) :=
  ⟨⟨⟨by decide,
    (C7_theorem.1 ⟨false⟩ aAC7 aAC7f 0 dAC7 dAC7f
      [MetricIdA.usedMemory, MetricIdA.totalMemory] _ _
      rfl
      (fun j hj => by simp [aAC7, aAC7f, hj])
      rfl rfl rfl
      (by decide)
      MetricIdA.temperature (by decide)).2⟩,
   C7_theorem.2.1 ⟨false⟩ aAC7f 0 dAC7f MetricIdA.usedMemory
     ["2", "GPU-7aaf", "Tesla T4"] _
     rfl
     (by decide)
     rfl
     (fun j d hj _ => by
       by_cases hj0 : j = 0
       · exact hj0
       · simp [aAC7f, hj0] at hj)
     4000⟩,
   ⟨by decide,
    (C7_theorem.2.2.1 ⟨true, true, true⟩ aBC7 aBC7f 0 dBC10 dBC7f
      [MetricIdB.powerLimitManagement, MetricIdB.powerLimitEnforced] _ _
      rfl
      (fun j hj => by simp [aBC7, aBC7f, hj])
      rfl rfl rfl
      (by decide)
      MetricIdB.temperature (by decide)).2⟩,
   C7_theorem.2.2.2.1 ⟨true, true, true⟩ aBC7f 0 dBC7f
     MetricIdB.powerLimitManagement
     ["4", "GPU-a1b2", "Tesla V100"] _
     rfl
     (by decide)
     rfl
     (fun j d hj _ => by
       by_cases hj0 : j = 0
       · exact hj0
       · simp [aBC7f, hj0] at hj)
     200⟩

/-- C9: with a fixed assignment of adapter responses, both `main.go`
Collectors reset every vec at the start of each sweep, so the emitted
sample list depends only on the adapter's responses and not on the
incoming vec state: two consecutive sweeps — the second starting from the
first's final state — produce identical sample lists (same keys, same
label tuples, same values, even in the same order).  The part_004
Collector never resets, but re-running its emission loop over the same
device list re-`Set`s every key with the same value, so there too a
second sweep from the first's final state emits the identical sample
list. -/
theorem C9_theorem :
    (∀ (fl : FlagsB) (a : AdapterG DeviceB) (s1 s2 : MetricIdB → VecState),
      (sweepB fl a s1).2 = (sweepB fl a s2).2 ∧
      (sweepB fl a ((sweepB fl a s1).1)).2 = (sweepB fl a s1).2) ∧
    (∀ (fl : FlagsA) (a : AdapterG DeviceA) (s1 s2 : MetricIdA → VecState),
      (sweepA fl a s1).2 = (sweepA fl a s2).2 ∧
      (sweepA fl a ((sweepA fl a s1).1)).2 = (sweepA fl a s1).2) ∧
    (∀ (a : Adapter4) (s : State4),
      (part4Collect a ((part4Collect a s).1)).2 = (part4Collect a s).2) := by
  refine ⟨fun _ _ _ _ => ⟨rfl, rfl⟩, fun _ _ _ _ => ⟨rfl, rfl⟩, ?_⟩
  intro a s
  cases hcm : collectMetrics4 a with
  | none =>
    unfold part4Collect
    rw [hcm]
  | some vd =>
    obtain ⟨ver, devices⟩ := vd
    unfold part4Collect
    rw [hcm]
    dsimp only
    rw [part4_idem_core]

/-- C10: in variant B (the watts-unit `Collect`), every emitted power,
power-limit and energy sample value is the raw milli-unit reading divided
by 1000 as unsigned integers before the float conversion: the exported
value is exactly `floor(raw/1000)` and the up-to-999 milli-unit remainder
is discarded. -/
theorem C10_theorem :
    ∀ (fl : FlagsB) (a : AdapterG DeviceB) (s : MetricIdB → VecState)
      (smp : Sample) (m : MetricIdB), m ∈ wattMetricsB →
      smp.key = keyOfB m → smp ∈ (sweepB fl a s).2 →
      ∃ n, a.deviceCount = some n ∧ ∃ i < n, ∃ dv, a.handle i = some dv ∧
        resolveIdB dv = some smp.labels ∧
        ∃ r, rawOfB m dv = some r ∧ smp.value = r / 1000 ∧
          1000 * smp.value ≤ r ∧ r < 1000 * smp.value + 1000 := by
  intro fl a s smp m hm hkey hmem
  rcases gSweep_srcOf resolveIdB (catalogB fl) keyOfB collectOrderB countKeyB
      a s smp hmem with ⟨n, _, hs⟩ | ⟨n, hn, m', _, hk', i, hi, dv, hd, hrid, hent⟩
  · exfalso
    have hck : smp.key = countKeyB := by rw [hs]
    rw [hkey] at hck
    exact keyOfB_ne_countKeyB m hck
  · have hm' : m' = m := keyOfB_inj m' m (by rw [← hk', hkey])
    subst hm'
    obtain ⟨rd, hrd, hval⟩ := (gEntries_mem (catalogB fl) dv m' smp.value).mp hent
    rw [catalogB_watt fl m' rd hm hrd dv] at hval
    obtain ⟨r, hr, hv⟩ := Option.map_eq_some'.mp hval
    exact ⟨n, hn, i, hi, dv, hd, hrid, r, hr, hv.symm, by omega, by omega⟩

/-- C10 witness: the raw 120500 mW reading is exported as the watt sample
value 120 = floor(120500/1000). -/
theorem C10_witness :
    ((⟨"nvidia_gpu_power_usage_watts", ["4", "GPU-a1b2", "Tesla V100"], 120⟩ : Sample)
      ∈ (sweepB ⟨true, true, true⟩ aBC10 (fun _ => VecState.reset)).2) ∧
    (∃ n, aBC10.deviceCount = some n ∧ ∃ i < n, ∃ dv, aBC10.handle i = some dv ∧
      resolveIdB dv = some ["4", "GPU-a1b2", "Tesla V100"] ∧
      ∃ r, rawOfB MetricIdB.powerUsage dv = some r ∧ (120 : Nat) = r / 1000 ∧
        1000 * 120 ≤ r ∧ r < 1000 * 120 + 1000) :=
  ⟨by decide,
   C10_theorem ⟨true, true, true⟩ aBC10 (fun _ => VecState.reset)
     ⟨"nvidia_gpu_power_usage_watts", ["4", "GPU-a1b2", "Tesla V100"], 120⟩
     MetricIdB.powerUsage (by decide) rfl (by decide)⟩

